import Mathlib

/-!
Verification development for the scheduled ingestion-and-derivation pipeline
of a weather-station network (the tasks module of the api service).

Modelling conventions:
- timestamps are integers counting seconds; the SQL date_trunc on hours and
  days becomes flooring division by 3600 and 86400 (the notation / and % on
  Int in this toolchain is Int.ediv and Int.emod, which floor for positive
  divisors exactly as date_trunc does);
- SQL numeric values (measured, consisted, thresholds) are rationals;
- a database table is a list of rows; DELETE is List.filter with the negated
  WHERE clause, INSERT ... SELECT appends the computed rows, UPDATE is
  List.map that rewrites the matching rows;
- SQL GROUP BY over a selection is: deduplicate the list of keys, and for
  each key aggregate over the rows matching that key;
- the wall-clock audit columns created_at and updated_at (always now()) are
  not modelled.
-/

namespace SurfaceWx

/-- Value stored in the quality_flag column of raw_data. Ingestion writes
integer flag identifiers; the step QC test writes the literal false into the
column on its hard-fail branch, modelled by the distinguished value
rejectedBool. -/
inductive QualityFlagVal where
  | flag (id : Int)
  | rejectedBool
deriving DecidableEq

/-- Row of the raw_data table, with the columns the tasks module reads and
writes. QC descriptions are modelled by the arguments of the FORMAT call
that produces them: a Boolean saying whether the exceeded wording was used,
the computed value, and the configured threshold. -/
structure RawReading where
  station_id : Nat
  variable_id : Nat
  datetime : Int
  measured : ℚ
  consisted : Option ℚ
  manual_flag : Option Int
  quality_flag : QualityFlagVal
  is_daily : Bool
  qc_persist_quality_flag : Int
  qc_persist_description : Option (Bool × ℚ × ℚ)
  qc_step_quality_flag : Int
  qc_step_description : Option (Bool × ℚ × ℚ)
  ml_flag : Option Int
deriving DecidableEq

/-- The LATERAL calc.value of the summary queries: consisted when present,
else measured. -/
def calcValue (r : RawReading) : ℚ :=
  match r.consisted with
  | some c => c
  | none => r.measured

/-- The test quality_flag in (1,4) of the summary queries. -/
def qualityFlagIn14 (q : QualityFlagVal) : Prop :=
  q = QualityFlagVal.flag 1 ∨ q = QualityFlagVal.flag 4

instance (q : QualityFlagVal) : Decidable (qualityFlagIn14 q) := by
  unfold qualityFlagIn14
  exact inferInstance

/-- Quality acceptance filter of the hourly and daily summary queries:
manual_flag in (1,4) OR (manual_flag IS NULL AND quality_flag in (1,4)). -/
def acceptedRow (r : RawReading) : Bool :=
  decide ((r.manual_flag = some 1 ∨ r.manual_flag = some 4) ∨
    (r.manual_flag = none ∧ qualityFlagIn14 r.quality_flag))

/-- Minimum of a list of rationals; SQL min over a nonempty group. -/
def qMin : List ℚ → ℚ
  | [] => 0
  | x :: xs => xs.foldl min x

/-- Maximum of a list of rationals; SQL max over a nonempty group. -/
def qMax : List ℚ → ℚ
  | [] => 0
  | x :: xs => xs.foldl max x

/-- Hour bucket of the sub-daily branch of the hourly summary query:
CASE WHEN rd.datetime = rd.datetime::date THEN date_trunc on hour of
(datetime - 1 second) ELSE date_trunc on hour of datetime END. The first
arm fires exactly when the timestamp equals its own date, that is at
midnight. -/
def hourlyBucketSubDaily (t : Int) : Int :=
  if t % 86400 = 0 then 3600 * ((t - 1) / 3600) else 3600 * (t / 3600)

/-- Hour bucket of the is_daily branch of the hourly summary query: plain
date_trunc on hour. -/
def hourlyBucketDaily (t : Int) : Int := 3600 * (t / 3600)

/-- WHERE clause of the hourly summary inner selections, shared by the
sub-daily branch (daily = false) and the is_daily branch (daily = true). -/
def hourlySelect (daily : Bool) (s e : Int) (stations : List Nat) (missing : ℚ)
    (raw : List RawReading) : List RawReading :=
  raw.filter (fun r => decide (s ≤ r.datetime ∧ r.datetime ≤ e ∧
    acceptedRow r = true ∧ r.is_daily = daily ∧ calcValue r ≠ missing ∧
    r.station_id ∈ stations))

/-- Row of the hourly_summary table. -/
structure HourlyRow where
  datetime : Int
  station_id : Nat
  variable_id : Nat
  min_value : ℚ
  max_value : ℚ
  avg_value : ℚ
  sum_value : ℚ
  num_records : Nat
deriving DecidableEq

/-- One branch of the INSERT of the hourly summary: group the selection by
(bucket, station, variable), aggregate each group, and keep only the groups
whose bucket equals the start datetime (the outer WHERE values.datetime =
start_datetime). -/
def hourlyInsertRows (bucket : Int → Int) (s : Int) (sel : List RawReading) :
    List HourlyRow :=
  (((sel.map (fun r => (bucket r.datetime, r.station_id, r.variable_id))).dedup).filter
      (fun k => decide (k.1 = s))).map (fun k =>
    let vs := (sel.filter (fun r => decide (bucket r.datetime = k.1 ∧
      r.station_id = k.2.1 ∧ r.variable_id = k.2.2))).map calcValue
    { datetime := k.1, station_id := k.2.1, variable_id := k.2.2,
      min_value := qMin vs, max_value := qMax vs,
      avg_value := vs.sum / (vs.length : ℚ), sum_value := vs.sum,
      num_records := vs.length })

/-- The calculate_hourly_summary task: bail out when start is after end,
else DELETE the rows of the selected stations at datetime = start and
INSERT the union of the sub-daily and is_daily aggregation branches. -/
def calculate_hourly_summary (s e : Int) (stations : List Nat) (missing : ℚ)
    (raw : List RawReading) (table : List HourlyRow) : List HourlyRow :=
  if s > e then table
  else
    (table.filter (fun row =>
        decide (¬(row.station_id ∈ stations ∧ row.datetime = s))))
      ++ hourlyInsertRows hourlyBucketSubDaily s
          (hourlySelect false s e stations missing raw)
      ++ hourlyInsertRows hourlyBucketDaily s
          (hourlySelect true s e stations missing raw)

/-- Scenario readings of claim C1: station 1, variable 5, accepted sub-daily
readings at 01:00 (value 10.0) and 02:00 (value 12.0) of day zero. -/
def c1Raw : List RawReading :=
  [{ station_id := 1, variable_id := 5, datetime := 3600, measured := 10,
     consisted := none, manual_flag := none, quality_flag := QualityFlagVal.flag 1,
     is_daily := false, qc_persist_quality_flag := 1, qc_persist_description := none,
     qc_step_quality_flag := 1, qc_step_description := none, ml_flag := none },
   { station_id := 1, variable_id := 5, datetime := 7200, measured := 12,
     consisted := none, manual_flag := none, quality_flag := QualityFlagVal.flag 1,
     is_daily := false, qc_persist_quality_flag := 1, qc_persist_description := none,
     qc_step_quality_flag := 1, qc_step_description := none, ml_flag := none }]

/-- Row of the daily_summary table; the day column is stored as a date,
modelled by the day number (count of days since the epoch). -/
structure DailyRow where
  day : Int
  station_id : Nat
  variable_id : Nat
  min_value : ℚ
  max_value : ℚ
  avg_value : ℚ
  sum_value : ℚ
  num_records : Nat
deriving DecidableEq

/-- Local date of a reading in the sub-daily branch of the daily summary:
cast of (datetime + offset minutes, minus 1 second) to a date. -/
def dailyDateSub (offset t : Int) : Int := (t + offset * 60 - 1) / 86400

/-- Local date of a reading in the is_daily branch of the daily summary:
plain cast of (datetime + offset minutes) to a date. -/
def dailyDateDaily (offset t : Int) : Int := (t + offset * 60) / 86400

/-- WHERE clause of the daily summary inner selections; ds and de are the
local midnights of start_date and end_date converted to UTC seconds. -/
def dailySelect (daily : Bool) (ds de : Int) (stations : List Nat) (missing : ℚ)
    (raw : List RawReading) : List RawReading :=
  raw.filter (fun r => decide (ds < r.datetime ∧ r.datetime ≤ de ∧
    calcValue r ≠ missing ∧ r.station_id ∈ stations ∧
    acceptedRow r = true ∧ r.is_daily = daily))

/-- One branch of the INSERT of the daily summary: group the selection by
(local day, station, variable) and aggregate each group; unlike the hourly
task there is no restriction of the inserted groups to the deleted window. -/
def dailyInsertRows (dateOf : Int → Int) (sel : List RawReading) : List DailyRow :=
  ((sel.map (fun r => (dateOf r.datetime, r.station_id, r.variable_id))).dedup).map
    (fun k =>
      let vs := (sel.filter (fun r => decide (dateOf r.datetime = k.1 ∧
        r.station_id = k.2.1 ∧ r.variable_id = k.2.2))).map calcValue
      { day := k.1, station_id := k.2.1, variable_id := k.2.2,
        min_value := qMin vs, max_value := qMax vs,
        avg_value := vs.sum / (vs.length : ℚ), sum_value := vs.sum,
        num_records := vs.length })

/-- The calculate_daily_summary task for one UTC-offset group of stations
(the Python loop body for a single offset): DELETE the rows of the selected
stations with day in the half-open UTC range of start_date and end_date,
then INSERT the union of the sub-daily and is_daily branches over readings
whose timestamp lies in the local-midnight window. -/
def calculate_daily_summary (start_date end_date offset : Int) (stations : List Nat)
    (missing : ℚ) (raw : List RawReading) (table : List DailyRow) : List DailyRow :=
  if start_date > end_date then table
  else
    let ds := start_date * 86400 - offset * 60
    let de := end_date * 86400 - offset * 60
    (table.filter (fun row => decide (¬(row.station_id ∈ stations ∧
        start_date ≤ row.day ∧ row.day < end_date))))
      ++ dailyInsertRows (dailyDateSub offset)
          (dailySelect false ds de stations missing raw)
      ++ dailyInsertRows (dailyDateDaily offset)
          (dailySelect true ds de stations missing raw)

/-- Row of the last24h_summary table. -/
structure Last24hRow where
  datetime : Int
  station_id : Nat
  variable_id : Nat
  min_value : ℚ
  max_value : ℚ
  avg_value : ℚ
  sum_value : ℚ
  num_records : Nat
  latest_value : ℚ
deriving DecidableEq

/-- Quality filter of the last24h query: consisted IS NOT NULL OR
quality_flag in (1,4); note that it differs from the hourly and daily
filter in not consulting manual_flag. -/
def last24hAccepted (r : RawReading) : Bool :=
  decide (r.consisted ≠ none ∨ qualityFlagIn14 r.quality_flag)

/-- Selection of the agg common table expression of the last24h query. -/
def last24hAggSelect (now : Int) (missing : ℚ) (raw : List RawReading) :
    List RawReading :=
  raw.filter (fun r => decide (now - 86400 < r.datetime ∧ r.datetime ≤ now ∧
    last24hAccepted r = true ∧ calcValue r ≠ missing ∧ r.is_daily = false))

/-- Selection of the last common table expression of the last24h query; the
missing-value filter here is on measured, not on calc.value. -/
def last24hLastSelect (now : Int) (missing : ℚ) (raw : List RawReading) :
    List RawReading :=
  raw.filter (fun r => decide (now - 86400 < r.datetime ∧ r.datetime ≤ now ∧
    last24hAccepted r = true ∧ r.measured ≠ missing ∧ r.is_daily = false))

/-- Reading with the greatest datetime of a list; the row with rownum 1 when
partitioning by (station, variable) ordered by datetime descending. Ties on
datetime are resolved by keeping the earlier list element, matching one
admissible ordering of the SQL row_number. -/
def latestReading : List RawReading → Option RawReading
  | [] => none
  | x :: xs => some (xs.foldl (fun b r => if r.datetime > b.datetime then r else b) x)

/-- The agg common table expression of the last24h query: per (station,
variable) group of the 24-hour window, the aggregated min, max, avg, sum
and count of calc.value. -/
def last24hAggRows (now : Int) (missing : ℚ) (raw : List RawReading) :
    List (Nat × Nat × ℚ × ℚ × ℚ × ℚ × Nat) :=
  let sel := last24hAggSelect now missing raw
  ((sel.map (fun r => (r.station_id, r.variable_id))).dedup).map (fun k =>
    let vs := (sel.filter (fun r => decide (r.station_id = k.1 ∧
      r.variable_id = k.2))).map calcValue
    (k.1, k.2, qMin vs, qMax vs, vs.sum / (vs.length : ℚ), vs.sum, vs.length))

/-- The calculate_last24h_summary task: DELETE every row of last24h_summary,
then INSERT the join of the agg and last expressions keyed by (station,
variable); the ON CONFLICT clause never fires because the table was just
emptied and the group keys are distinct. The parameter now models the SQL
now(). -/
def calculate_last24h_summary (now : Int) (missing : ℚ) (raw : List RawReading)
    (_table : List Last24hRow) : List Last24hRow :=
  (last24hAggRows now missing raw).filterMap (fun g =>
    (latestReading ((last24hLastSelect now missing raw).filter
        (fun r => decide (r.station_id = g.1 ∧ r.variable_id = g.2.1)))).map
      (fun lr =>
        { datetime := now, station_id := g.1, variable_id := g.2.1,
          min_value := g.2.2.1, max_value := g.2.2.2.1,
          avg_value := g.2.2.2.2.1, sum_value := g.2.2.2.2.2.1,
          num_records := g.2.2.2.2.2.2, latest_value := calcValue lr }))

/-- Row of the wx_stationvariable table: the per-(station, variable) QC
thresholds. -/
structure StationVariable where
  station_id : Nat
  variable_id : Nat
  test_step_value : Option ℚ
  test_persistence_variance : Option ℚ
deriving DecidableEq

/-- Insertion of an element into a list sorted by the Boolean order le. -/
def insertSorted {α : Type} (le : α → α → Bool) (x : α) : List α → List α
  | [] => [x]
  | y :: ys => if le x y then x :: y :: ys else y :: insertSorted le x ys

/-- Insertion sort by the Boolean order le; models a SQL ORDER BY. -/
def sortBy {α : Type} (le : α → α → Bool) (l : List α) : List α :=
  l.foldr (insertSorted le) []

/-- Pairing of each list element with its successor; models the SQL LEAD
window function over an ordered partition. -/
def withLead {α : Type} : List α → List (α × Option α)
  | [] => []
  | [x] => [(x, none)]
  | x :: y :: rest => (x, some y) :: withLead (y :: rest)

/-- Concatenated image of a list under a list-valued function. -/
def listFlatMap {α β : Type} (f : α → List β) : List α → List β
  | [] => []
  | x :: xs => f x ++ listFlatMap f xs

/-- Row of the wx_stationdataminimuminterval table; datetime is the day
timestamp taken from the generated series, minimum_interval is in seconds
(None for SQL NULL). -/
structure MinIntRow where
  datetime : Int
  station_id : Nat
  variable_id : Nat
  minimum_interval : Option Int
  record_count : Nat
  ideal_record_count : ℚ
  record_count_percentage : ℚ
deriving DecidableEq

/-- The LATERAL subquery of the minimum-interval task for one generated day
and one (station, variable) pair: readings of the pair inside the local-day
window, each giving the day-truncation of (datetime - 1 second + offset)
and the spacing to the next reading (a fixed 24 hours for is_daily rows,
NULL for the last reading of the window). Note that no value or quality
filter appears here. -/
def minIntLateral (offset day : Int) (sid vid : Nat) (raw : List RawReading) :
    List (Int × Option Int) :=
  let win := raw.filter (fun r => decide (day - offset * 60 < r.datetime ∧
    r.datetime ≤ day + 86400 - offset * 60 ∧ r.station_id = sid ∧
    r.variable_id = vid))
  let sorted := sortBy (fun a b => decide (a.datetime ≤ b.datetime)) win
  (withLead sorted).map (fun p =>
    (86400 * ((p.1.datetime - 1 + offset * 60) / 86400),
     if p.1.is_daily then some 86400
     else p.2.map (fun nxt => nxt.datetime - p.1.datetime)))

/-- Minimum of a list of integers, None when empty; SQL min over the
non-null interval values of a group. -/
def intListMin : List Int → Option Int
  | [] => none
  | x :: xs => some (xs.foldl min x)

/-- One group of the minimum-interval INSERT: when the lateral subquery is
empty the LEFT JOIN yields a single all-null row (count 0, coalesced zeros);
otherwise only the lateral rows whose truncated day equals the generated day
survive the outer WHERE, and the group aggregates them. None means the group
produces no row at all. -/
def minIntervalRowOpt (offset day : Int) (sid vid : Nat) (raw : List RawReading) :
    Option MinIntRow :=
  let rows := minIntLateral offset day sid vid raw
  if rows.isEmpty then
    some { datetime := day, station_id := sid, variable_id := vid,
           minimum_interval := none, record_count := 0,
           ideal_record_count := 0, record_count_percentage := 0 }
  else
    let kept := rows.filter (fun p => decide (p.1 = day))
    if kept.isEmpty then none
    else
      let m := intListMin (kept.filterMap (fun p => p.2))
      some { datetime := day, station_id := sid, variable_id := vid,
             minimum_interval := m, record_count := kept.length,
             ideal_record_count :=
               match m with
               | none => 0
               | some mi => (86400 : ℚ) / (mi : ℚ),
             record_count_percentage :=
               match m with
               | none => 0
               | some mi => ((kept.length : ℚ) / ((86400 : ℚ) / (mi : ℚ))) * 100 }

/-- Natural key of a minimum-interval row, the conflict target of the
upsert. -/
def minIntKey (r : MinIntRow) : Int × Nat × Nat :=
  (r.datetime, r.station_id, r.variable_id)

/-- The DO UPDATE SET arm of the minimum-interval upsert: overwrite the
computed columns of the conflicting row with the excluded values. -/
def minIntUpdate (x r : MinIntRow) : MinIntRow :=
  { r with minimum_interval := x.minimum_interval,
           record_count := x.record_count,
           ideal_record_count := x.ideal_record_count,
           record_count_percentage := x.record_count_percentage }

/-- INSERT ... ON CONFLICT (datetime, station_id, variable_id) DO UPDATE for
a single computed row. -/
def upsertMinInt (table : List MinIntRow) (x : MinIntRow) : List MinIntRow :=
  if table.any (fun r => decide (minIntKey r = minIntKey x)) then
    table.map (fun r => if decide (minIntKey r = minIntKey x) then minIntUpdate x r else r)
  else table ++ [x]

/-- Days of generate_series(start_date midnight, end_date midnight,
1 day), as UTC-second timestamps; requires start_date at most end_date as
guaranteed by the guard of the task. -/
def minIntDays (sd ed : Int) : List Int :=
  (List.range ((ed - sd).toNat + 1)).map (fun i : Nat => sd * 86400 + 86400 * (i : Int))

/-- The calculate_station_minimum_interval task for one UTC-offset group of
stations: bail out when start_date is after end_date, else upsert one row
per generated day and per configured (station, variable) pair of the
selected stations. -/
def calculate_station_minimum_interval (sd ed offset : Int)
    (svList : List StationVariable) (stations : List Nat)
    (raw : List RawReading) (table : List MinIntRow) : List MinIntRow :=
  if sd > ed then table
  else
    (listFlatMap (fun day =>
        (svList.filter (fun sv => decide (sv.station_id ∈ stations))).filterMap
          (fun sv => minIntervalRowOpt offset day sv.station_id sv.variable_id raw))
      (minIntDays sd ed)).foldl upsertMinInt table

/-- Lookup of the wx_stationvariable row of a (station, variable) pair; the
SQL joins assume at most one row per pair (the natural uniqueness of the
configuration table), which find? models. -/
def svLookup (cfg : List StationVariable) (sid vid : Nat) : Option StationVariable :=
  cfg.find? (fun sv => decide (sv.station_id = sid ∧ sv.variable_id = vid))

/-- Sample variance as computed by the SQL VARIANCE aggregate: NULL for
fewer than two values, else the sum of squared deviations from the mean
divided by (n - 1). -/
def varSamp (xs : List ℚ) : Option ℚ :=
  if xs.length < 2 then none
  else
    some ((xs.map (fun x => (x - xs.sum / (xs.length : ℚ)) ^ 2)).sum /
      ((xs.length : ℚ) - 1))

/-- Measured values of the readings of a pair in the trailing window of the
persistence variance subquery: datetime at least t - 1 day and strictly
before t. -/
def persistWindowMeasured (raw : List RawReading) (sid vid : Nat) (t : Int) :
    List ℚ :=
  (raw.filter (fun p => decide (p.station_id = sid ∧ p.variable_id = vid ∧
    p.datetime < t ∧ p.datetime ≥ t - 86400))).map (fun p => p.measured)

/-- One record of the persistence-test cursor query. -/
structure PersistRec where
  station_id : Nat
  variable_id : Nat
  datetime : Int
  current_variance : ℚ
  test_persistence_variance : ℚ
deriving DecidableEq

/-- Record of the persistence-test cursor for one reading: present exactly
when the pair has a configured test_persistence_variance (the INNER JOIN
plus the IS NOT NULL filter); current_variance is the coalesced variance of
the trailing 24-hour window of measured values. -/
def mkPersistRec (cfg : List StationVariable) (raw : List RawReading)
    (v : RawReading) : Option PersistRec :=
  match svLookup cfg v.station_id v.variable_id with
  | none => none
  | some sv =>
    match sv.test_persistence_variance with
    | none => none
    | some thr =>
      some { station_id := v.station_id, variable_id := v.variable_id,
             datetime := v.datetime,
             current_variance :=
               (varSamp (persistWindowMeasured raw v.station_id v.variable_id
                 v.datetime)).getD 0,
             test_persistence_variance := thr }

/-- Boolean lexicographic order of the ORDER BY station_id, variable_id,
datetime clause of the persistence cursor. -/
def persistOrder (a b : PersistRec) : Bool :=
  decide (a.station_id < b.station_id ∨ (a.station_id = b.station_id ∧
    (a.variable_id < b.variable_id ∨ (a.variable_id = b.variable_id ∧
      a.datetime ≤ b.datetime))))

/-- The persistence-test cursor: one record per reading of a configured
pair, ordered by station, variable, datetime. The cursor is opened before
any update runs, and the updates touch only the persistence flag columns,
which the cursor query does not read. -/
def persistRecs (cfg : List StationVariable) (raw : List RawReading) :
    List PersistRec :=
  sortBy persistOrder (raw.filterMap (mkPersistRec cfg raw))

/-- Effect of one persistence-test cursor record on one row: when the
variance exceeds the threshold, every reading of the pair strictly inside
the open trailing window is flagged SUSPICIOUS (2); otherwise the record
reading itself is flagged GOOD (4). The description stores the FORMAT
arguments, with true for the exceeded wording. -/
def persistRowStep (row : RawReading) (rec : PersistRec) : RawReading :=
  if rec.current_variance > rec.test_persistence_variance then
    if decide (rec.station_id = row.station_id ∧ rec.variable_id = row.variable_id ∧
        rec.datetime > row.datetime ∧ row.datetime > rec.datetime - 86400) then
      { row with qc_persist_quality_flag := 2,
                 qc_persist_description :=
                   some (true, rec.current_variance, rec.test_persistence_variance) }
    else row
  else
    if decide (rec.station_id = row.station_id ∧ rec.variable_id = row.variable_id ∧
        rec.datetime = row.datetime) then
      { row with qc_persist_quality_flag := 4,
                 qc_persist_description :=
                   some (false, rec.current_variance, rec.test_persistence_variance) }
    else row

/-- Loop body of the persistence test for one cursor record, applied to the
whole raw_data table. -/
def applyPersistRec (db : List RawReading) (rec : PersistRec) : List RawReading :=
  db.map (fun row => persistRowStep row rec)

/-- The two closing UPDATEs of the persistence test: readings of pairs with
no wx_stationvariable row, or with a NULL test_persistence_variance, are
reset to NEUTRAL (1) with NULL description. -/
def persistResets (cfg : List StationVariable) (db : List RawReading) :
    List RawReading :=
  db.map (fun row =>
    match svLookup cfg row.station_id row.variable_id with
    | none => { row with qc_persist_quality_flag := 1, qc_persist_description := none }
    | some sv =>
      match sv.test_persistence_variance with
      | none => { row with qc_persist_quality_flag := 1, qc_persist_description := none }
      | some _ => row)

/-- The calculate_persist_qc_test task: run the cursor loop over the initial
readings, then apply the two NEUTRAL resets. -/
def calculate_persist_qc_test (cfg : List StationVariable) (db : List RawReading) :
    List RawReading :=
  persistResets cfg ((persistRecs cfg db).foldl applyPersistRec db)

/-- Measured value of the latest reading of the pair strictly before t; the
SQL LAG over the partition ordered by datetime, assuming the datetimes of a
pair are distinct (the natural key of raw_data). -/
def lagMeasured (raw : List RawReading) (sid vid : Nat) (t : Int) : Option ℚ :=
  (latestReading (raw.filter (fun p => decide (p.station_id = sid ∧
    p.variable_id = vid ∧ p.datetime < t)))).map (fun p => p.measured)

/-- The coalesced step of a reading: absolute difference of measured from
the previous measured of the pair, 0 when there is no predecessor. -/
def stepResultOf (raw : List RawReading) (r : RawReading) : ℚ :=
  match lagMeasured raw r.station_id r.variable_id r.datetime with
  | none => 0
  | some m => |r.measured - m|

/-- One record of the step-test cursor query. -/
structure StepRec where
  station_id : Nat
  variable_id : Nat
  datetime : Int
  step_result : ℚ
  test_step_value : ℚ
  qc_persist_quality_flag : Int
deriving DecidableEq

/-- Record of the step-test cursor for one reading: present exactly when
the pair has a configured test_step_value; carries the coalesced step and
the persistence flag as of the cursor snapshot. -/
def mkStepRec (cfg : List StationVariable) (raw : List RawReading)
    (v : RawReading) : Option StepRec :=
  match svLookup cfg v.station_id v.variable_id with
  | none => none
  | some sv =>
    match sv.test_step_value with
    | none => none
    | some thr =>
      some { station_id := v.station_id, variable_id := v.variable_id,
             datetime := v.datetime, step_result := stepResultOf raw v,
             test_step_value := thr,
             qc_persist_quality_flag := v.qc_persist_quality_flag }

/-- The step-test cursor: one record per reading of a pair with a
configured step threshold. -/
def stepRecs (cfg : List StationVariable) (raw : List RawReading) : List StepRec :=
  raw.filterMap (mkStepRec cfg raw)

/-- Branches of the step-test loop body for the reading matching a record:
step above threshold and persistence flag SUSPICIOUS sets the step flag to
SUSPICIOUS (2) and forces quality_flag to the rejected literal; step above
threshold otherwise sets only the step flag to 2; step within threshold
sets the step flag to GOOD (4). Descriptions store the FORMAT arguments,
with true for the exceeded wording. -/
def stepUpdate (rec : StepRec) (row : RawReading) : RawReading :=
  if rec.step_result > rec.test_step_value then
    if rec.qc_persist_quality_flag = 2 then
      { row with qc_step_quality_flag := 2,
                 quality_flag := QualityFlagVal.rejectedBool,
                 qc_step_description := some (true, rec.step_result, rec.test_step_value) }
    else
      { row with qc_step_quality_flag := 2,
                 qc_step_description := some (true, rec.step_result, rec.test_step_value) }
  else
    { row with qc_step_quality_flag := 4,
               qc_step_description := some (false, rec.step_result, rec.test_step_value) }

/-- Effect of one step-test cursor record on one row: the reading with the
matching (station, variable, datetime) is rewritten by stepUpdate. -/
def stepRowStep (row : RawReading) (rec : StepRec) : RawReading :=
  if decide (rec.station_id = row.station_id ∧ rec.variable_id = row.variable_id ∧
      rec.datetime = row.datetime) then stepUpdate rec row else row

/-- Loop body of the step test for one cursor record, applied to the whole
raw_data table. -/
def applyStepRec (db : List RawReading) (rec : StepRec) : List RawReading :=
  db.map (fun row => stepRowStep row rec)

/-- Natural key of a raw reading: (station, variable, datetime). -/
def rrKey (r : RawReading) : Nat × Nat × Int :=
  (r.station_id, r.variable_id, r.datetime)

/-- Effect of the two closing UPDATEs of the step test on one row: a
reading of a pair with no wx_stationvariable row, or with a NULL
test_step_value, is reset to NEUTRAL (1) with NULL description. -/
def stepResetRow (cfg : List StationVariable) (row : RawReading) : RawReading :=
  match svLookup cfg row.station_id row.variable_id with
  | none => { row with qc_step_quality_flag := 1, qc_step_description := none }
  | some sv =>
    match sv.test_step_value with
    | none => { row with qc_step_quality_flag := 1, qc_step_description := none }
    | some _ => row

/-- The two closing UPDATEs of the step test over the whole table. -/
def stepResets (cfg : List StationVariable) (db : List RawReading) :
    List RawReading :=
  db.map (stepResetRow cfg)

/-- The calculate_step_qc_test task: run the cursor loop over the initial
readings, then apply the two NEUTRAL resets. -/
def calculate_step_qc_test (cfg : List StationVariable) (db : List RawReading) :
    List RawReading :=
  stepResets cfg ((stepRecs cfg db).foldl applyStepRec db)

/-- Row of the StationDataFile table; status_id follows the source coding:
1 not processed, 2 being processed, 3 processed, 4 error, 5 skipped,
6 reprocess. The observation column is modelled as a list of characters so
that the Python slice to 1024 characters is List.take. -/
structure StationDataFile where
  id : Nat
  file_hash : Nat
  status_id : Nat
  observation : List Char
deriving DecidableEq

/-- Claim filter of process_station_data_files: only files with status 1
(not processed) or 6 (reprocess) are selected for a run. -/
def sdfClaimFilter (f : StationDataFile) : Bool :=
  decide (f.status_id = 1 ∨ f.status_id = 6)

/-- UPDATE of the status of the file with a given id. -/
def setStatus (db : List StationDataFile) (i s : Nat) : List StationDataFile :=
  db.map (fun x => if x.id = i then { x with status_id := s } else x)

/-- Duplicate check of process_station_data_files for one file: some other
row shares its content hash and is in a status other than 4 (error) and
5 (skipped). -/
def sdfDuplicateExists (db : List StationDataFile) (f : StationDataFile) : Bool :=
  db.any (fun other => decide (other.file_hash = f.file_hash ∧ other.id ≠ f.id ∧
    other.status_id ≠ 4 ∧ other.status_id ≠ 5))

/-- Loop body of process_station_data_files for one claimed file. The
decoder is an oracle returning unit on success or the formatted diagnostic
text of the raised exception. Returns the updated table and whether the
decoder was invoked. Without force_reprocess, a file whose hash duplicates
a non-error non-skipped row is set to status 5 and the decoder is not
called; otherwise the decoder runs, success sets status 3 and an exception
sets status 4 and stores the diagnostic sliced to 1024 characters. -/
def processOneStationDataFile (decodeResult : StationDataFile → Except (List Char) Unit)
    (force_reprocess : Bool) (db : List StationDataFile) (f : StationDataFile) :
    List StationDataFile × Bool :=
  if force_reprocess = false ∧ sdfDuplicateExists db f = true then
    (setStatus db f.id 5, false)
  else
    match decodeResult f with
    | Except.ok _ => (setStatus db f.id 3, true)
    | Except.error msg =>
      ((db.map (fun x => if x.id = f.id then
          { x with status_id := 4, observation := msg.take 1024 } else x)), true)

/-- The process_station_data_files task: claim up to 60 files with status 1
or 6, mark them all status 2 (being processed), then run the per-file loop
over the claimed batch. -/
def process_station_data_files (decodeResult : StationDataFile → Except (List Char) Unit)
    (force_reprocess : Bool) (db : List StationDataFile) : List StationDataFile :=
  let batch := (db.filter sdfClaimFilter).take 60
  let db1 := batch.foldl (fun d f => setStatus d f.id 2) db
  batch.foldl (fun d f => (processOneStationDataFile decodeResult force_reprocess d f).1) db1

/-- Row of the Document table of the process_document task. -/
structure Document where
  id : Nat
  processed : Bool
deriving DecidableEq

/-- Claim filter of process_document: only unprocessed documents are
selected for a run. -/
def documentClaimFilter (d : Document) : Bool := decide (d.processed = false)

/-- Loop body of process_document for one claimed document: a successful
decode marks it processed; a decoder exception is only logged, leaving the
document unchanged (there is no error status and no diagnostic column on
this path). -/
def processOneDocument (decodeResult : Document → Except (List Char) Unit)
    (db : List Document) (d : Document) : List Document :=
  match decodeResult d with
  | Except.ok _ => db.map (fun x => if x.id = d.id then { x with processed := true } else x)
  | Except.error _ => db

/-- Hours since the last execution of a DCP device, as computed by
latest_received_dpc_data_in_hours: integer truncation toward zero of the
elapsed seconds over 3600 (the Python int cast), and 999999 when
last_execution is None (the caught TypeError branch). -/
def latest_received_dpc_data_in_hours (now : Int) (last_execution : Option Int) : Int :=
  match last_execution with
  | some t => Int.tdiv (now - t) 3600
  | none => 999999

/-- Query window in hours handed to the retrieval subprocess:
max(3, min(hours since last execution, configured maximum)). -/
def dcp_query_window (now maxInterval : Int) (last_execution : Option Int) : Int :=
  max 3 (min (latest_received_dpc_data_in_hours now last_execution) maxInterval)

/-- Comparison of a frame byte with a one-character Python string, as in
the expression testing the frame type byte. In Python 3 indexing a bytes
object yields an int, and an int never equals a str, so the comparison is
constantly false regardless of the byte. -/
def pyEqByteStr (_b : Nat) (_s : Char) : Bool := false

/-- Signed big-endian integer of a byte list, as decoded by the Python
int.from_bytes with signed true. -/
def intFromBytesSignedBE (bs : List Nat) : Int :=
  let u : Nat := bs.foldl (fun acc b => acc * 256 + b) 0
  if 2 * u ≥ 256 ^ bs.length then (u : Int) - ((256 ^ bs.length : Nat) : Int)
  else (u : Int)

/-- Loop body of process_received_data for one 56-byte frame: when the type
byte at index 1 compares equal to the character 9 the frame is a keep-alive
and nothing is forwarded; otherwise bytes 10 to 13 and 14 to 17 decode as
signed big-endian latitude and longitude scaled by 1e-7, and the frame is
forwarded exactly when 15 to 19 degrees latitude and -90 to -87 degrees
longitude. Coordinates are kept as the decoded integers in 1e-7 degree
units, so the bounding box bounds are scaled by 10^7; the Python float
division by 1e7 and float comparison agree with this integer comparison for
every 32-bit value. Returns the forwarded coordinate pair, or none when the
frame is dropped. -/
def process_received_data_frame (data : List Nat) : Option (Int × Int) :=
  if pyEqByteStr (data.getD 1 0) (Char.ofNat 57) then none
  else
    let latitude := intFromBytesSignedBE ((data.drop 10).take 4)
    let longitude := intFromBytesSignedBE ((data.drop 14).take 4)
    if 15 * 10 ^ 7 ≤ latitude ∧ latitude ≤ 19 * 10 ^ 7 ∧
        -90 * 10 ^ 7 ≤ longitude ∧ longitude ≤ -87 * 10 ^ 7 then
      some (latitude, longitude)
    else none

/-- Big-endian 4-byte encoding of an unsigned 32-bit value, for building
concrete frames. -/
def be4 (n : Nat) : List Nat :=
  [n / 16777216 % 256, n / 65536 % 256, n / 256 % 256, n % 256]

/-- One record of the response of the prediction service. -/
structure PredictionRecord where
  datetime : Int
  prediction : String
deriving DecidableEq

/-- One entry of the formatted write-back list built from the response. -/
structure FormattedResult where
  datetime : Int
  target_station_id : Nat
  variable_id : Nat
  result : Int
deriving DecidableEq

/-- Lookup of a prediction code in the configured result mapping. -/
def lookupMapping (m : List (String × Int)) (k : String) : Option Int :=
  (m.find? (fun p => p.1 == k)).map (fun p => p.2)

/-- The response-formatting loop of predict_data: translate each returned
code through the result mapping, raising (Except.error) at the first code
with no mapping entry, which aborts the whole function before any update
statement runs. -/
def formatPredictedValues (result_mapping : List (String × Int))
    (target_station_id variable_id : Nat) :
    List PredictionRecord → Except String (List FormattedResult)
  | [] => Except.ok []
  | rec :: rest =>
    match lookupMapping result_mapping rec.prediction with
    | some result =>
      match formatPredictedValues result_mapping target_station_id variable_id rest with
      | Except.ok frs =>
        Except.ok ({ datetime := rec.datetime,
                     target_station_id := target_station_id,
                     variable_id := variable_id, result := result } :: frs)
      | Except.error e => Except.error e
    | none => Except.error rec.prediction

/-- One UPDATE of the executemany write-back: set ml_flag of the raw
reading matching (target station, variable, datetime). -/
def applyMlFlag (db : List RawReading) (fr : FormattedResult) : List RawReading :=
  db.map (fun r =>
    if decide (r.station_id = fr.target_station_id ∧ r.variable_id = fr.variable_id ∧
        r.datetime = fr.datetime) then { r with ml_flag := some fr.result } else r)

/-- Write-back phase of predict_data: when every returned code maps, apply
the executemany of ml_flag updates; when formatting raised on an unmapped
code, the exception propagates before the update block and the raw readings
are untouched. -/
def predict_data_writeback (result_mapping : List (String × Int))
    (target_station_id variable_id : Nat) (response : List PredictionRecord)
    (db : List RawReading) : List RawReading :=
  match formatPredictedValues result_mapping target_station_id variable_id response with
  | Except.ok frs => frs.foldl applyMlFlag db
  | Except.error _ => db

/-- Convenience constructor for raw readings with no consisted value, no
ml flag and NEUTRAL step flag. -/
def mkReading (sid vid : Nat) (t : Int) (m : ℚ) (daily : Bool)
    (manual : Option Int) (qf : Int) (pflag : Int) : RawReading :=
  { station_id := sid, variable_id := vid, datetime := t, measured := m,
    consisted := none, manual_flag := manual, quality_flag := QualityFlagVal.flag qf,
    is_daily := daily, qc_persist_quality_flag := pflag,
    qc_persist_description := none, qc_step_quality_flag := 1,
    qc_step_description := none, ml_flag := none }

/-- Configuration row of the concrete examples: pair (1,1) with no step
threshold and persistence variance threshold 1. -/
def c2Sv : List StationVariable :=
  [{ station_id := 1, variable_id := 1, test_step_value := none,
     test_persistence_variance := none }]

/-- Reading of claim C2 whose value equals the missing sentinel -999. -/
def c2MissingReading : RawReading := mkReading 1 1 1000 (-999) false none 1 1

/-- Ordinary reading of claim C2 alongside the missing one. -/
def c2GoodReading : RawReading := mkReading 1 1 2000 5 false none 1 1

/-- Reading of claim C3: an is_daily accepted reading exactly at the local
midnight closing the daily window of day 0 (UTC offset 0). -/
def c3Raw : List RawReading := [mkReading 1 1 86400 5 true none 1 1]

/-- Configuration row of claim C4: pair (1,1) with persistence variance
threshold 1 and no step threshold. -/
def c4SvRow : StationVariable :=
  { station_id := 1, variable_id := 1, test_step_value := none,
    test_persistence_variance := some 1 }

/-- Configuration of claim C4. -/
def c4Cfg : List StationVariable := [c4SvRow]

/-- Readings of claim C4 for pair (1,1): a manually rejected reading at
t = 0 with measured 0, an accepted reading at t = 1000 with measured 10,
and the current reading at t = 2000. -/
def c4Raw : List RawReading :=
  [mkReading 1 1 0 0 false (some 3) 1 1,
   mkReading 1 1 1000 10 false none 1 1,
   mkReading 1 1 2000 7 false none 1 1]

/-- Configuration of the claim C5 witness: pair (1,1) with step threshold 1
and no persistence threshold. -/
def c5Cfg : List StationVariable :=
  [{ station_id := 1, variable_id := 1, test_step_value := some 1,
     test_persistence_variance := none }]

/-- Readings of the claim C5 witness: pair (1,1) with measured 0 then 10,
the second already flagged SUSPICIOUS by the persistence test. -/
def c5Db : List RawReading :=
  [mkReading 1 1 0 0 false none 1 1,
   mkReading 1 1 1000 10 false none 1 2]

/-- Files of the claim C6 witness: two files sharing the content hash 42,
the first already processed (status 3), the second claimed (status 2). -/
def c6File1 : StationDataFile := { id := 1, file_hash := 42, status_id := 3, observation := [] }

/-- Second file of the claim C6 witness. -/
def c6File2 : StationDataFile := { id := 2, file_hash := 42, status_id := 2, observation := [] }

/-- Table of the claim C6 witness. -/
def c6Db : List StationDataFile := [c6File1, c6File2]

/-- Decoder oracle of claim C7 that always raises. -/
def c7DecodeFail : Document → Except (List Char) Unit :=
  fun _ => Except.error [Char.ofNat 101]

/-- Document of claim C7, unprocessed. -/
def c7Doc : Document := { id := 1, processed := false }

/-- Document table of claim C7. -/
def c7Db : List Document := [c7Doc]

/-- Station-data-file decoder oracle of the claim C7 witness that always
raises with a three-character diagnostic. -/
def c7SdfDecodeFail : StationDataFile → Except (List Char) Unit :=
  fun _ => Except.error [Char.ofNat 101, Char.ofNat 114, Char.ofNat 114]

/-- Station data file of the claim C7 witness, claimed and without
duplicates. -/
def c7Sdf : StationDataFile := { id := 7, file_hash := 99, status_id := 2, observation := [] }

/-- Keep-alive frame of claim C9: 56 bytes, type byte 0x39 (the character
9), whose payload bytes 10 to 17 happen to decode to latitude 17.5 and
longitude -88 in 1e-7 degree units. -/
def c9KeepAliveFrame : List Nat :=
  [0, 57] ++ List.replicate 8 0 ++ be4 175000000 ++ be4 3414967296 ++
    List.replicate 38 0

/-- Data frame of claim C9 with latitude 17.5 and longitude -88, inside the
bounding box. -/
def c9DataFrameInBox : List Nat :=
  [0, 48] ++ List.replicate 8 0 ++ be4 175000000 ++ be4 3414967296 ++
    List.replicate 38 0

/-- Data frame of claim C9 with latitude 30 and longitude -88, outside the
bounding box. -/
def c9DataFrameOutBox : List Nat :=
  [0, 48] ++ List.replicate 8 0 ++ be4 300000000 ++ be4 3414967296 ++
    List.replicate 38 0

/-- Result mapping of the claim C10 witness: only the code 1 is mapped. -/
def c10Mapping : List (String × Int) := [("1", 4)]

/-- Response of the claim C10 witness: a mapped code followed by the
unmapped code 2. -/
def c10Response : List PredictionRecord :=
  [{ datetime := 0, prediction := "1" }, { datetime := 60, prediction := "2" }]

/-- Raw readings of the claim C10 witness. -/
def c10Db : List RawReading :=
  [mkReading 9 3 0 5 false none 1 1, mkReading 9 3 60 6 false none 1 1]

section Theorems

/-- Claim C1, counterexample: the sub-daily hour bucket of a reading at
02:00 is 02:00 itself (the subtract-one-second arm fires only at midnight),
so in the spec scenario the 01:00 bucket receives one record, not two. -/
theorem C1_counterexample :
    hourlyBucketSubDaily 7200 = 7200 ∧
    (calculate_hourly_summary 3600 7200 [1] (-999) c1Raw []).map
      (fun row => (row.datetime, row.station_id, row.variable_id, row.num_records)) =
      [(3600, 1, 5, 1)] := by
  with_unfolding_all decide

/-- Claim C1, amended: the hourly summary applies the subtract-one-second
rule to a sub-daily reading only when its timestamp falls exactly at
midnight, attributing it to the 23:00 bucket of the previous day; a reading
on any other hour boundary is attributed to its own hour, so in the spec
scenario the 01:00 bucket gets num_records equal to 1 while the 02:00
reading forms its own bucket. -/
theorem C1_amended (t u : Int) (ht : t % 86400 = 0) (hu1 : u % 3600 = 0)
    (hu2 : u % 86400 ≠ 0) :
    hourlyBucketSubDaily t = t - 3600 ∧ hourlyBucketSubDaily u = u ∧
    (calculate_hourly_summary 3600 7200 [1] (-999) c1Raw []).map
      (fun row => (row.datetime, row.station_id, row.variable_id, row.num_records)) =
      [(3600, 1, 5, 1)] := by
  refine ⟨?_, ?_, ?_⟩
  · unfold hourlyBucketSubDaily
    rw [if_pos ht]
    omega
  · unfold hourlyBucketSubDaily
    rw [if_neg hu2]
    omega
  · with_unfolding_all decide

/-- Witness of the amended claim C1 at the midnight timestamp 86400 and the
non-midnight hour boundary 7200. -/
theorem C1_witness :
    ((86400 : Int) % 86400 = 0 ∧ (7200 : Int) % 3600 = 0 ∧ (7200 : Int) % 86400 ≠ 0) ∧
    (hourlyBucketSubDaily 86400 = 86400 - 3600 ∧ hourlyBucketSubDaily 7200 = 7200 ∧
      (calculate_hourly_summary 3600 7200 [1] (-999) c1Raw []).map
        (fun row => (row.datetime, row.station_id, row.variable_id, row.num_records)) =
        [(3600, 1, 5, 1)]) :=
  ⟨⟨by decide, by decide, by decide⟩,
   C1_amended 86400 7200 (by decide) (by decide) (by decide)⟩

/-- Claim C8, counterexample: a DCP device with no prior execution gets the
window max(3, min(999999, configured max)), here 72 hours with a configured
maximum of 72, not the minimum window of 3 hours. -/
theorem C8_counterexample :
    dcp_query_window 0 72 none = 72 ∧ (72 : Int) ≠ 3 := by decide

/-- Claim C8, amended: the query window equals the clamp of the elapsed
hours between 3 and the configured maximum, but a device with no prior
execution uses the maximum window (the caught TypeError yields 999999
hours, which the clamp reduces to the configured maximum whenever that
maximum is between 3 and 999999). -/
theorem C8_amended (now maxI t : Int) (h3 : 3 ≤ maxI) (hmax : maxI ≤ 999999) :
    dcp_query_window now maxI none = maxI ∧
    (latest_received_dpc_data_in_hours now (some t) ≤ 3 →
      dcp_query_window now maxI (some t) = 3) ∧
    (3 ≤ latest_received_dpc_data_in_hours now (some t) →
      latest_received_dpc_data_in_hours now (some t) ≤ maxI →
      dcp_query_window now maxI (some t) = latest_received_dpc_data_in_hours now (some t)) ∧
    (maxI ≤ latest_received_dpc_data_in_hours now (some t) →
      dcp_query_window now maxI (some t) = maxI) := by
  have hm : latest_received_dpc_data_in_hours now none = 999999 := rfl
  unfold dcp_query_window
  rw [hm]
  refine ⟨?_, ?_, ?_, ?_⟩ <;> omega

/-- Witness of the amended claim C8 with configured maximum 72 and a device
last executed two hours before now. -/
theorem C8_witness :
    ((3 : Int) ≤ 72 ∧ (72 : Int) ≤ 999999) ∧
    (dcp_query_window 7200 72 none = 72 ∧
      (latest_received_dpc_data_in_hours 7200 (some 0) ≤ 3 →
        dcp_query_window 7200 72 (some 0) = 3) ∧
      (3 ≤ latest_received_dpc_data_in_hours 7200 (some 0) →
        latest_received_dpc_data_in_hours 7200 (some 0) ≤ 72 →
        dcp_query_window 7200 72 (some 0) = latest_received_dpc_data_in_hours 7200 (some 0)) ∧
      (72 ≤ latest_received_dpc_data_in_hours 7200 (some 0) →
        dcp_query_window 7200 72 (some 0) = 72)) :=
  ⟨⟨by decide, by decide⟩, C8_amended 7200 72 0 (by decide) (by decide)⟩

/-- Claim C9: the frame-type comparison of the lightning reader compares a
byte (an int in Python 3) with a one-character string and is therefore
always false, so a keep-alive frame whose payload decodes inside the
bounding box is forwarded; the coordinate decoding and the bounding-box
filter themselves behave as claimed, forwarding latitude 17.5 with
longitude -88 and dropping latitude 30. -/
theorem C9_theorem :
    (c9KeepAliveFrame.length = 56 ∧ c9KeepAliveFrame.getD 1 0 = 57 ∧
      process_received_data_frame c9KeepAliveFrame = some (175000000, -880000000)) ∧
    process_received_data_frame c9DataFrameInBox = some (175000000, -880000000) ∧
    process_received_data_frame c9DataFrameOutBox = none := by
  decide

/-- Claim C10, helper: the response-formatting loop raises as soon as some
returned code has no entry in the result mapping. -/
theorem formatPredictedValues_error_of_unmapped (m : List (String × Int))
    (target vid : Nat) :
    ∀ response : List PredictionRecord,
      (∃ rec ∈ response, lookupMapping m rec.prediction = none) →
      ∃ e, formatPredictedValues m target vid response = Except.error e := by
  intro response h
  induction response with
  | nil => simp at h
  | cons rec rest ih =>
    obtain ⟨x, hx, hxm⟩ := h
    cases hrec : lookupMapping m rec.prediction with
    | none => exact ⟨rec.prediction, by simp only [formatPredictedValues, hrec]⟩
    | some res =>
      have hxr : x ∈ rest := by
        rcases List.mem_cons.mp hx with h1 | h1
        · rw [h1, hrec] at hxm
          cases hxm
        · exact h1
      obtain ⟨e, he⟩ := ih ⟨x, hxr, hxm⟩
      exact ⟨e, by simp only [formatPredictedValues, hrec, he]⟩

/-- Claim C10: when any code returned by the prediction service has no
entry in the configured result mapping, the write-back leaves every raw
reading untouched; no quality label is applied, partially or otherwise. -/
theorem C10_theorem (mapping : List (String × Int)) (target vid : Nat)
    (response : List PredictionRecord) (db : List RawReading)
    (h : ∃ rec ∈ response, lookupMapping mapping rec.prediction = none) :
    predict_data_writeback mapping target vid response db = db := by
  obtain ⟨e, he⟩ := formatPredictedValues_error_of_unmapped mapping target vid response h
  unfold predict_data_writeback
  rw [he]

/-- Witness of claim C10 on a batch with a mapped and an unmapped code. -/
theorem C10_witness :
    (∃ rec ∈ c10Response, lookupMapping c10Mapping rec.prediction = none) ∧
    predict_data_writeback c10Mapping 9 3 c10Response c10Db = c10Db :=
  ⟨by decide, C10_theorem c10Mapping 9 3 c10Response c10Db (by decide)⟩

/-- Claim C6: a claimed file whose content hash equals that of another row
with status outside error (4) and skipped (5) is marked skipped (5) without
its decoder being invoked, while with force_reprocess the decoder is
invoked regardless. -/
theorem C6_theorem (decodeResult : StationDataFile → Except (List Char) Unit)
    (db : List StationDataFile) (f : StationDataFile)
    (hdup : sdfDuplicateExists db f = true) :
    (processOneStationDataFile decodeResult false db f).2 = false ∧
    (∀ x ∈ (processOneStationDataFile decodeResult false db f).1,
      x.id = f.id → x.status_id = 5) ∧
    (processOneStationDataFile decodeResult true db f).2 = true := by
  refine ⟨?_, ?_, ?_⟩
  · unfold processOneStationDataFile
    rw [if_pos ⟨rfl, hdup⟩]
  · unfold processOneStationDataFile
    rw [if_pos ⟨rfl, hdup⟩]
    intro x hx hid
    simp only [setStatus, List.mem_map] at hx
    obtain ⟨y, _, rfl⟩ := hx
    by_cases hy : y.id = f.id
    · rw [if_pos hy]
    · rw [if_neg hy] at hid ⊢
      exact absurd hid hy
  · unfold processOneStationDataFile
    rw [if_neg (fun h => Bool.true_eq_false.mp h.1)]
    cases decodeResult f <;> rfl

/-- Witness of claim C6 on two claimed files sharing the content hash 42,
the sibling in status 3. -/
theorem C6_witness :
    sdfDuplicateExists c6Db c6File2 = true ∧
    ((processOneStationDataFile (fun _ => Except.ok ()) false c6Db c6File2).2 = false ∧
      (∀ x ∈ (processOneStationDataFile (fun _ => Except.ok ()) false c6Db c6File2).1,
        x.id = c6File2.id → x.status_id = 5) ∧
      (processOneStationDataFile (fun _ => Except.ok ()) true c6Db c6File2).2 = true) :=
  ⟨by decide, C6_theorem (fun _ => Except.ok ()) c6Db c6File2 (by decide)⟩

/-- Claim C7, counterexample: a document whose decoder raises is left
completely unchanged (no error status, no stored diagnostic) and still
satisfies the claim filter of the next run, so it is retried automatically
without any reprogram step. -/
theorem C7_counterexample :
    processOneDocument c7DecodeFail c7Db c7Doc = c7Db ∧
    documentClaimFilter c7Doc = true ∧
    c7Db.filter documentClaimFilter = [c7Doc] := by decide

/-- Claim C7, amended: for station-data-file jobs a successful decode sets
status 3 (done) and a decoder exception sets status 4 (error) with a
diagnostic of at most 1024 characters, and neither status is selected by
the claim filter again, so those outcomes are terminal until an explicit
reprocess status (6); document jobs however have no error path: a decoder
exception leaves the document unchanged and it is claimed again on the next
run. -/
theorem C7_amended (decodeResult : StationDataFile → Except (List Char) Unit)
    (force : Bool) (db : List StationDataFile) (f : StationDataFile)
    (hguard : ¬(force = false ∧ sdfDuplicateExists db f = true))
    (docDecode : Document → Except (List Char) Unit) (ddb : List Document)
    (d : Document) (dmsg : List Char) (hdfail : docDecode d = Except.error dmsg) :
    (decodeResult f = Except.ok () →
      (processOneStationDataFile decodeResult force db f).2 = true ∧
      ∀ x ∈ (processOneStationDataFile decodeResult force db f).1, x.id = f.id →
        x.status_id = 3 ∧ sdfClaimFilter x = false) ∧
    (∀ msg, decodeResult f = Except.error msg →
      (processOneStationDataFile decodeResult force db f).2 = true ∧
      ∀ x ∈ (processOneStationDataFile decodeResult force db f).1, x.id = f.id →
        x.status_id = 4 ∧ x.observation.length ≤ 1024 ∧ sdfClaimFilter x = false) ∧
    processOneDocument docDecode ddb d = ddb := by
  refine ⟨?_, ?_, ?_⟩
  · intro hok
    unfold processOneStationDataFile
    rw [if_neg hguard, hok]
    refine ⟨rfl, ?_⟩
    intro x hx hid
    simp only [setStatus, List.mem_map] at hx
    obtain ⟨y, _, rfl⟩ := hx
    by_cases hy : y.id = f.id
    · rw [if_pos hy]
      exact ⟨rfl, rfl⟩
    · rw [if_neg hy] at hid ⊢
      exact absurd hid hy
  · intro msg herr
    unfold processOneStationDataFile
    rw [if_neg hguard, herr]
    refine ⟨rfl, ?_⟩
    intro x hx hid
    simp only [List.mem_map] at hx
    obtain ⟨y, _, rfl⟩ := hx
    by_cases hy : y.id = f.id
    · rw [if_pos hy]
      refine ⟨rfl, ?_, rfl⟩
      simp [List.length_take]
    · rw [if_neg hy] at hid ⊢
      exact absurd hid hy
  · unfold processOneDocument
    rw [hdfail]

/-- Witness of the amended claim C7 on a claimed station data file with no
duplicate and a failing decoder, and a document with a failing decoder. -/
theorem C7_witness :
    (¬(false = false ∧ sdfDuplicateExists [c7Sdf] c7Sdf = true) ∧
      c7SdfDecodeFail c7Sdf = Except.error [Char.ofNat 101, Char.ofNat 114, Char.ofNat 114] ∧
      c7DecodeFail c7Doc = Except.error [Char.ofNat 101]) ∧
    ((c7SdfDecodeFail c7Sdf = Except.ok () →
      (processOneStationDataFile c7SdfDecodeFail false [c7Sdf] c7Sdf).2 = true ∧
      ∀ x ∈ (processOneStationDataFile c7SdfDecodeFail false [c7Sdf] c7Sdf).1,
        x.id = c7Sdf.id → x.status_id = 3 ∧ sdfClaimFilter x = false) ∧
    (∀ msg, c7SdfDecodeFail c7Sdf = Except.error msg →
      (processOneStationDataFile c7SdfDecodeFail false [c7Sdf] c7Sdf).2 = true ∧
      ∀ x ∈ (processOneStationDataFile c7SdfDecodeFail false [c7Sdf] c7Sdf).1,
        x.id = c7Sdf.id →
          x.status_id = 4 ∧ x.observation.length ≤ 1024 ∧ sdfClaimFilter x = false) ∧
    processOneDocument c7DecodeFail c7Db c7Doc = c7Db) :=
  ⟨⟨by decide, rfl, rfl⟩,
   C7_amended c7SdfDecodeFail false [c7Sdf] c7Sdf (by decide) c7DecodeFail c7Db
     c7Doc [Char.ofNat 101] rfl⟩

/-- Claim C2, counterexample: the minimum-interval task applies no
missing-value filter, so a reading whose value equals the sentinel -999 is
counted: alongside one ordinary reading it raises record_count from 1 to 2
and creates a 1000-second minimum interval, instead of contributing to no
stored record count. -/
theorem C2_counterexample :
    calcValue c2MissingReading = -999 ∧
    (calculate_station_minimum_interval 0 0 0 c2Sv [1]
        [c2MissingReading, c2GoodReading] []).map
      (fun r => (r.datetime, r.station_id, r.variable_id, r.minimum_interval,
        r.record_count)) = [(0, 1, 1, some 1000, 2)] ∧
    (calculate_station_minimum_interval 0 0 0 c2Sv [1] [c2GoodReading] []).map
      (fun r => (r.datetime, r.station_id, r.variable_id, r.minimum_interval,
        r.record_count)) = [(0, 1, 1, none, 1)] := by
  refine ⟨by decide, by decide, by decide⟩

/-- Helper: filtering twice with the same predicate filters once. -/
theorem filter_idem {α : Type} (p : α → Bool) (l : List α) :
    (l.filter p).filter p = l.filter p := by
  induction l with
  | nil => rfl
  | cons x xs ih =>
    by_cases hx : p x = true
    · simp [List.filter_cons, hx, ih]
    · simp [List.filter_cons, hx, ih]

/-- Helper: every row inserted by the hourly summary has the start datetime
as its bucket and takes its station from some selected reading. -/
theorem hourlyInsertRows_mem (bucket : Int → Int) (s : Int)
    (sel : List RawReading) (row : HourlyRow)
    (h : row ∈ hourlyInsertRows bucket s sel) :
    row.datetime = s ∧ ∃ r ∈ sel, row.station_id = r.station_id := by
  unfold hourlyInsertRows at h
  simp only [List.mem_map, List.mem_filter, List.mem_dedup, decide_eq_true_eq] at h
  obtain ⟨k, ⟨hkmem, hks⟩, rfl⟩ := h
  obtain ⟨r, hr, rfl⟩ := hkmem
  exact ⟨hks, r, hr, rfl⟩

/-- Helper: every reading selected by the hourly summary belongs to a
selected station. -/
theorem hourlySelect_station (daily : Bool) (s e : Int) (stations : List Nat)
    (missing : ℚ) (raw : List RawReading) (r : RawReading)
    (h : r ∈ hourlySelect daily s e stations missing raw) :
    r.station_id ∈ stations := by
  unfold hourlySelect at h
  simp only [List.mem_filter, decide_eq_true_eq] at h
  exact h.2.2.2.2.2.2

/-- Helper: the hourly delete removes every row the hourly insert adds. -/
theorem hourly_delete_insert (bucket : Int → Int) (daily : Bool) (s e : Int)
    (stations : List Nat) (missing : ℚ) (raw : List RawReading) :
    (hourlyInsertRows bucket s (hourlySelect daily s e stations missing raw)).filter
      (fun row => decide (¬(row.station_id ∈ stations ∧ row.datetime = s))) = [] := by
  rw [List.filter_eq_nil_iff]
  intro row hrow
  obtain ⟨hdt, r, hr, hst⟩ := hourlyInsertRows_mem bucket s _ row hrow
  simp only [decide_eq_true_eq]
  intro hcon
  exact hcon ⟨hst ▸ hourlySelect_station daily s e stations missing raw r hr, hdt⟩

/-- Helper: idempotence of the hourly summary task. -/
theorem calculate_hourly_idem (s e : Int) (stations : List Nat) (missing : ℚ)
    (raw : List RawReading) (table : List HourlyRow) :
    calculate_hourly_summary s e stations missing raw
      (calculate_hourly_summary s e stations missing raw table) =
    calculate_hourly_summary s e stations missing raw table := by
  by_cases hse : s > e
  · simp only [calculate_hourly_summary, if_pos hse]
  · simp only [calculate_hourly_summary, if_neg hse]
    rw [List.filter_append, List.filter_append, filter_idem,
      hourly_delete_insert hourlyBucketSubDaily false s e stations missing raw,
      hourly_delete_insert hourlyBucketDaily true s e stations missing raw]
    simp

/-- Helper: every row inserted by the daily summary takes its day and its
station from some selected reading. -/
theorem dailyInsertRows_mem (dateOf : Int → Int) (sel : List RawReading)
    (row : DailyRow) (h : row ∈ dailyInsertRows dateOf sel) :
    ∃ r ∈ sel, row.day = dateOf r.datetime ∧ row.station_id = r.station_id := by
  unfold dailyInsertRows at h
  simp only [List.mem_map, List.mem_dedup] at h
  obtain ⟨k, hkmem, rfl⟩ := h
  obtain ⟨r, hr, rfl⟩ := hkmem
  exact ⟨r, hr, rfl, rfl⟩

/-- Helper: every reading selected by the daily summary belongs to a
selected station. -/
theorem dailySelect_station (daily : Bool) (ds de : Int) (stations : List Nat)
    (missing : ℚ) (raw : List RawReading) (r : RawReading)
    (h : r ∈ dailySelect daily ds de stations missing raw) :
    r.station_id ∈ stations := by
  unfold dailySelect at h
  simp only [List.mem_filter, decide_eq_true_eq] at h
  exact h.2.2.2.2.1

/-- Helper: when every selected reading maps to a day inside the half-open
window, the daily delete removes every row the daily insert adds. -/
theorem daily_delete_insert (dateOf : Int → Int) (daily : Bool)
    (start_date end_date ds de : Int) (stations : List Nat) (missing : ℚ)
    (raw : List RawReading)
    (hrange : ∀ r ∈ dailySelect daily ds de stations missing raw,
      start_date ≤ dateOf r.datetime ∧ dateOf r.datetime < end_date) :
    (dailyInsertRows dateOf (dailySelect daily ds de stations missing raw)).filter
      (fun row => decide (¬(row.station_id ∈ stations ∧
        start_date ≤ row.day ∧ row.day < end_date))) = [] := by
  rw [List.filter_eq_nil_iff]
  intro row hrow
  obtain ⟨r, hr, hday, hst⟩ := dailyInsertRows_mem dateOf _ row hrow
  simp only [decide_eq_true_eq]
  intro hcon
  exact hcon ⟨hst ▸ dailySelect_station daily ds de stations missing raw r hr,
    hday ▸ (hrange r hr).1, hday ▸ (hrange r hr).2⟩

/-- Helper: idempotence of the daily summary task, provided every selected
reading maps to a local day inside the half-open deleted window. -/
theorem calculate_daily_idem (start_date end_date offset : Int)
    (stations : List Nat) (missing : ℚ) (raw : List RawReading)
    (table : List DailyRow)
    (hsub : ∀ r ∈ dailySelect false (start_date * 86400 - offset * 60)
        (end_date * 86400 - offset * 60) stations missing raw,
      start_date ≤ dailyDateSub offset r.datetime ∧
        dailyDateSub offset r.datetime < end_date)
    (hdai : ∀ r ∈ dailySelect true (start_date * 86400 - offset * 60)
        (end_date * 86400 - offset * 60) stations missing raw,
      start_date ≤ dailyDateDaily offset r.datetime ∧
        dailyDateDaily offset r.datetime < end_date) :
    calculate_daily_summary start_date end_date offset stations missing raw
      (calculate_daily_summary start_date end_date offset stations missing raw table) =
    calculate_daily_summary start_date end_date offset stations missing raw table := by
  by_cases hse : start_date > end_date
  · simp only [calculate_daily_summary, if_pos hse]
  · simp only [calculate_daily_summary, if_neg hse]
    rw [List.filter_append, List.filter_append, filter_idem,
      daily_delete_insert (dailyDateSub offset) false start_date end_date _ _
        stations missing raw hsub,
      daily_delete_insert (dailyDateDaily offset) true start_date end_date _ _
        stations missing raw hdai]
    simp

/-- Helper: idempotence of the last24h summary task, which deletes the
whole table before inserting. -/
theorem calculate_last24h_idem (now : Int) (missing : ℚ) (raw : List RawReading)
    (table : List Last24hRow) :
    calculate_last24h_summary now missing raw
      (calculate_last24h_summary now missing raw table) =
    calculate_last24h_summary now missing raw table := rfl

/-- Helper: the DO UPDATE arm rewrites a conflicting row into the excluded
row, since the key columns already agree and every other column is set. -/
theorem minIntUpdate_eq_of_key (x r : MinIntRow) (h : minIntKey r = minIntKey x) :
    minIntUpdate x r = x := by
  have h1 : r.datetime = x.datetime := congrArg Prod.fst h
  have h2 : r.station_id = x.station_id := congrArg (fun p => p.2.1) h
  have h3 : r.variable_id = x.variable_id := congrArg (fun p => p.2.2) h
  cases x
  cases r
  simp only at h1 h2 h3
  simp [minIntUpdate, h1, h2, h3]

/-- Helper: after upserting x, every row carrying the key of x equals x. -/
theorem upsert_settled (T : List MinIntRow) (x : MinIntRow) :
    ∀ r ∈ upsertMinInt T x, minIntKey r = minIntKey x → r = x := by
  intro r hr hk
  unfold upsertMinInt at hr
  by_cases hany : T.any (fun r => decide (minIntKey r = minIntKey x)) = true
  · rw [if_pos hany] at hr
    simp only [List.mem_map] at hr
    obtain ⟨y, _, rfl⟩ := hr
    by_cases hky : minIntKey y = minIntKey x
    · rw [if_pos (by simpa using hky)]
      exact minIntUpdate_eq_of_key x y hky
    · rw [if_neg (by simpa using hky)] at hk ⊢
      exact absurd hk hky
  · rw [if_neg hany] at hr
    rcases List.mem_append.mp hr with h | h
    · exact absurd (List.any_eq_true.mpr ⟨r, h, by simpa using hk⟩) hany
    · simpa using h

/-- Helper: upserting a row with a different key preserves the settled
state of a key. -/
theorem upsert_settled_preserved (T : List MinIntRow) (x z : MinIntRow)
    (hxz : minIntKey z ≠ minIntKey x)
    (hs : ∀ r ∈ T, minIntKey r = minIntKey x → r = x) :
    ∀ r ∈ upsertMinInt T z, minIntKey r = minIntKey x → r = x := by
  intro r hr hk
  unfold upsertMinInt at hr
  by_cases hany : T.any (fun r => decide (minIntKey r = minIntKey z)) = true
  · rw [if_pos hany] at hr
    simp only [List.mem_map] at hr
    obtain ⟨y, hy, rfl⟩ := hr
    by_cases hky : minIntKey y = minIntKey z
    · rw [if_pos (by simpa using hky)] at hk ⊢
      have hyk : minIntKey (minIntUpdate z y) = minIntKey y := rfl
      rw [hyk, hky] at hk
      exact absurd hk hxz
    · rw [if_neg (by simpa using hky)] at hk ⊢
      exact hs y hy hk
  · rw [if_neg hany] at hr
    rcases List.mem_append.mp hr with h | h
    · exact hs r h hk
    · rw [List.mem_singleton.mp h] at hk
      exact absurd hk hxz

/-- Helper: after upserting x, the key of x is present. -/
theorem upsert_hasKey_self (T : List MinIntRow) (x : MinIntRow) :
    (upsertMinInt T x).any (fun r => decide (minIntKey r = minIntKey x)) = true := by
  unfold upsertMinInt
  by_cases hany : T.any (fun r => decide (minIntKey r = minIntKey x)) = true
  · rw [if_pos hany]
    obtain ⟨y, hy, hky⟩ := List.any_eq_true.mp hany
    refine List.any_eq_true.mpr ⟨minIntUpdate x y, List.mem_map.mpr ⟨y, hy, ?_⟩, ?_⟩
    · rw [if_pos hky]
    · simpa using (show minIntKey (minIntUpdate x y) = minIntKey x from
        (rfl : minIntKey (minIntUpdate x y) = minIntKey y).trans
          (by simpa using hky))
  · rw [if_neg hany]
    exact List.any_eq_true.mpr ⟨x, List.mem_append_right T (List.mem_singleton_self x),
      by simp⟩

/-- Helper: an upsert never removes a present key. -/
theorem upsert_hasKey_preserved (T : List MinIntRow) (z : MinIntRow)
    (k : Int × Nat × Nat)
    (h : T.any (fun r => decide (minIntKey r = k)) = true) :
    (upsertMinInt T z).any (fun r => decide (minIntKey r = k)) = true := by
  unfold upsertMinInt
  obtain ⟨y, hy, hky⟩ := List.any_eq_true.mp h
  by_cases hany : T.any (fun r => decide (minIntKey r = minIntKey z)) = true
  · rw [if_pos hany]
    refine List.any_eq_true.mpr ⟨_, List.mem_map.mpr ⟨y, hy, rfl⟩, ?_⟩
    by_cases hkz : minIntKey y = minIntKey z
    · rw [if_pos (by simpa using hkz)]
      simpa using ((rfl : minIntKey (minIntUpdate z y) = minIntKey y).trans
        (by simpa using hky))
    · rw [if_neg (by simpa using hkz)]
      exact hky
  · rw [if_neg hany]
    exact List.any_eq_true.mpr ⟨y, List.mem_append_left _ hy, hky⟩

/-- Helper: upserting a row whose key is present and settled changes
nothing. -/
theorem upsert_eq_of_settled (T : List MinIntRow) (x : MinIntRow)
    (hs : ∀ r ∈ T, minIntKey r = minIntKey x → r = x)
    (hk : T.any (fun r => decide (minIntKey r = minIntKey x)) = true) :
    upsertMinInt T x = T := by
  unfold upsertMinInt
  rw [if_pos hk]
  have : ∀ r ∈ T,
      (if decide (minIntKey r = minIntKey x) = true then minIntUpdate x r else r) = r := by
    intro r hr
    by_cases hkr : minIntKey r = minIntKey x
    · rw [if_pos (by simpa using hkr)]
      rw [hs r hr hkr]
      exact minIntUpdate_eq_of_key x x rfl
    · rw [if_neg (by simpa using hkr)]
  calc T.map _ = T.map id := List.map_congr_left this
    _ = T := List.map_id T

/-- Helper: folding upserts of rows with other keys preserves the settled
state of a key. -/
theorem foldl_upsert_settled (zs : List MinIntRow) (x : MinIntRow)
    (hzs : ∀ z ∈ zs, minIntKey z ≠ minIntKey x) :
    ∀ T, (∀ r ∈ T, minIntKey r = minIntKey x → r = x) →
      ∀ r ∈ zs.foldl upsertMinInt T, minIntKey r = minIntKey x → r = x := by
  induction zs with
  | nil => intro T h; exact h
  | cons z rest ih =>
    intro T h
    exact ih (fun w hw => hzs w (List.mem_cons_of_mem z hw)) (upsertMinInt T z)
      (upsert_settled_preserved T x z (hzs z (List.mem_cons_self z rest)) h)

/-- Helper: folding upserts preserves the presence of a key. -/
theorem foldl_upsert_hasKey (zs : List MinIntRow) (k : Int × Nat × Nat) :
    ∀ T, T.any (fun r => decide (minIntKey r = k)) = true →
      (zs.foldl upsertMinInt T).any (fun r => decide (minIntKey r = k)) = true := by
  induction zs with
  | nil => intro T h; exact h
  | cons z rest ih =>
    intro T h
    exact ih (upsertMinInt T z) (upsert_hasKey_preserved T z k h)

/-- Helper: upserting a key-distinct batch of rows twice equals upserting
it once. -/
theorem foldl_upsert_idem (rows : List MinIntRow)
    (hnd : (rows.map minIntKey).Nodup) :
    ∀ t, rows.foldl upsertMinInt (rows.foldl upsertMinInt t) =
      rows.foldl upsertMinInt t := by
  induction rows with
  | nil => intro t; rfl
  | cons x rest ih =>
    intro t
    have hx : minIntKey x ∉ rest.map minIntKey := (List.nodup_cons.mp hnd).1
    have hrest : (rest.map minIntKey).Nodup := (List.nodup_cons.mp hnd).2
    show rest.foldl upsertMinInt
        (upsertMinInt (rest.foldl upsertMinInt (upsertMinInt t x)) x) =
      rest.foldl upsertMinInt (upsertMinInt t x)
    have hset : ∀ r ∈ rest.foldl upsertMinInt (upsertMinInt t x),
        minIntKey r = minIntKey x → r = x :=
      foldl_upsert_settled rest x
        (fun z hz he => hx (he ▸ List.mem_map_of_mem minIntKey hz))
        (upsertMinInt t x) (upsert_settled t x)
    have hkey : (rest.foldl upsertMinInt (upsertMinInt t x)).any
        (fun r => decide (minIntKey r = minIntKey x)) = true :=
      foldl_upsert_hasKey rest (minIntKey x) (upsertMinInt t x)
        (upsert_hasKey_self t x)
    rw [upsert_eq_of_settled _ x hset hkey]
    exact ih hrest (upsertMinInt t x)

/-- Helper: a computed minimum-interval row carries the generated day and
the configured pair as its key. -/
theorem minIntervalRowOpt_key (off day : Int) (sid vid : Nat)
    (raw : List RawReading) (r : MinIntRow)
    (h : minIntervalRowOpt off day sid vid raw = some r) :
    r.datetime = day ∧ r.station_id = sid ∧ r.variable_id = vid := by
  simp only [minIntervalRowOpt] at h
  split at h
  · cases h
    exact ⟨rfl, rfl, rfl⟩
  · split at h
    · cases h
    · cases h
      exact ⟨rfl, rfl, rfl⟩

/-- Helper: membership in listFlatMap comes from some element of the
argument list. -/
theorem listFlatMap_mem {α β : Type} (f : α → List β) (l : List α) (b : β)
    (h : b ∈ listFlatMap f l) : ∃ a ∈ l, b ∈ f a := by
  induction l with
  | nil => cases h
  | cons x xs ih =>
    rcases List.mem_append.mp h with h1 | h1
    · exact ⟨x, List.mem_cons_self x xs, h1⟩
    · obtain ⟨a, ha, hb⟩ := ih h1
      exact ⟨a, List.mem_cons_of_mem x ha, hb⟩

/-- Helper: the per-day batch of the minimum-interval insert has pairwise
distinct keys when the configured pairs are distinct. -/
theorem perday_rows_key_nodup (off day : Int) (raw : List RawReading)
    (svF : List StationVariable)
    (hsv : (svF.map (fun sv => (sv.station_id, sv.variable_id))).Nodup) :
    ((svF.filterMap (fun sv =>
      minIntervalRowOpt off day sv.station_id sv.variable_id raw)).map minIntKey).Nodup := by
  induction svF with
  | nil => exact List.nodup_nil
  | cons sv rest ih =>
    have hhead : (sv.station_id, sv.variable_id) ∉
        rest.map (fun sv => (sv.station_id, sv.variable_id)) :=
      (List.nodup_cons.mp hsv).1
    have hrest := ih (List.nodup_cons.mp hsv).2
    rw [List.filterMap_cons]
    cases hr : minIntervalRowOpt off day sv.station_id sv.variable_id raw with
    | none => exact hrest
    | some r =>
      rw [List.map_cons, List.nodup_cons]
      refine ⟨?_, hrest⟩
      intro hmem
      simp only [List.mem_map] at hmem
      obtain ⟨r2, hr2, hkeq⟩ := hmem
      obtain ⟨sv2, hsv2, hr2some⟩ := List.mem_filterMap.mp hr2
      obtain ⟨hd2, hs2, hv2⟩ := minIntervalRowOpt_key off day sv2.station_id
        sv2.variable_id raw r2 hr2some
      obtain ⟨hd1, hs1, hv1⟩ := minIntervalRowOpt_key off day sv.station_id
        sv.variable_id raw r hr
      apply hhead
      refine List.mem_map.mpr ⟨sv2, hsv2, ?_⟩
      have h1 : r2.station_id = r.station_id := congrArg (fun p => p.2.1) hkeq
      have h2 : r2.variable_id = r.variable_id := congrArg (fun p => p.2.2) hkeq
      rw [hs2] at h1
      rw [hv2] at h2
      rw [h1, h2, hs1, hv1]

/-- Helper: every row of the per-day batch carries the generated day. -/
theorem perday_rows_datetime (off day : Int) (raw : List RawReading)
    (svF : List StationVariable) (r : MinIntRow)
    (h : r ∈ svF.filterMap (fun sv =>
      minIntervalRowOpt off day sv.station_id sv.variable_id raw)) :
    r.datetime = day := by
  obtain ⟨sv, _, hsome⟩ := List.mem_filterMap.mp h
  exact (minIntervalRowOpt_key off day sv.station_id sv.variable_id raw r hsome).1

/-- Helper: the full minimum-interval insert batch has pairwise distinct
keys when the generated days and the configured pairs are distinct. -/
theorem flat_rows_key_nodup (off : Int) (raw : List RawReading)
    (svF : List StationVariable)
    (hsv : (svF.map (fun sv => (sv.station_id, sv.variable_id))).Nodup)
    (days : List Int) (hdays : days.Nodup) :
    ((listFlatMap (fun day => svF.filterMap (fun sv =>
      minIntervalRowOpt off day sv.station_id sv.variable_id raw)) days).map
        minIntKey).Nodup := by
  induction days with
  | nil => exact List.nodup_nil
  | cons d rest ih =>
    have hdhead : d ∉ rest := (List.nodup_cons.mp hdays).1
    have hrest := ih (List.nodup_cons.mp hdays).2
    show ((svF.filterMap _ ++ listFlatMap _ rest).map minIntKey).Nodup
    rw [List.map_append, List.nodup_append]
    refine ⟨perday_rows_key_nodup off d raw svF hsv, hrest, ?_⟩
    intro a ha hb
    simp only [List.mem_map] at ha hb
    obtain ⟨r1, hr1, rfl⟩ := ha
    obtain ⟨r2, hr2, hk2⟩ := hb
    obtain ⟨d2, hd2, hr2mem⟩ := listFlatMap_mem _ rest r2 hr2
    have h1 : r1.datetime = d := perday_rows_datetime off d raw svF r1 hr1
    have h2 : r2.datetime = d2 := perday_rows_datetime off d2 raw svF r2 hr2mem
    have : r2.datetime = r1.datetime := congrArg Prod.fst hk2
    rw [h1, h2] at this
    exact hdhead (this ▸ hd2)

/-- Helper: the generated day series is duplicate free. -/
theorem minIntDays_nodup (sd ed : Int) : (minIntDays sd ed).Nodup := by
  unfold minIntDays
  unfold List.Nodup
  rw [List.pairwise_map]
  refine List.Pairwise.imp ?_ (List.nodup_range ((ed - sd).toNat + 1))
  intro a b hab hfeq
  exact hab (by omega)

/-- Helper: idempotence of the minimum-interval task, provided the
configured (station, variable) pairs are pairwise distinct. -/
theorem calculate_minint_idem (sd ed off : Int) (svList : List StationVariable)
    (stations : List Nat) (raw : List RawReading) (table : List MinIntRow)
    (hsv : (svList.map (fun sv => (sv.station_id, sv.variable_id))).Nodup) :
    calculate_station_minimum_interval sd ed off svList stations raw
      (calculate_station_minimum_interval sd ed off svList stations raw table) =
    calculate_station_minimum_interval sd ed off svList stations raw table := by
  by_cases h : sd > ed
  · simp only [calculate_station_minimum_interval, if_pos h]
  · simp only [calculate_station_minimum_interval, if_neg h]
    refine foldl_upsert_idem _ ?_ table
    refine flat_rows_key_nodup off raw _ ?_ (minIntDays sd ed) (minIntDays_nodup sd ed)
    have hsub : List.Sublist
        ((svList.filter (fun sv => decide (sv.station_id ∈ stations))).map
          (fun sv => (sv.station_id, sv.variable_id)))
        (svList.map (fun sv => (sv.station_id, sv.variable_id))) :=
      List.Sublist.map _ (List.filter_sublist svList)
    exact List.Nodup.sublist hsub hsv

/-- Claim C3, counterexample: running the daily summary twice over an
unchanged is_daily reading placed exactly at the end-boundary local
midnight duplicates its row, because the reading maps to day end_date while
the delete window stops at end_date exclusive. -/
theorem C3_counterexample :
    (calculate_daily_summary 0 1 0 [1] (-999) c3Raw []).map
        (fun r => (r.day, r.station_id, r.variable_id, r.num_records)) =
      [(1, 1, 1, 1)] ∧
    (calculate_daily_summary 0 1 0 [1] (-999) c3Raw
        (calculate_daily_summary 0 1 0 [1] (-999) c3Raw [])).map
        (fun r => (r.day, r.station_id, r.variable_id, r.num_records)) =
      [(1, 1, 1, 1), (1, 1, 1, 1)] ∧
    calculate_daily_summary 0 1 0 [1] (-999) c3Raw
        (calculate_daily_summary 0 1 0 [1] (-999) c3Raw []) ≠
      calculate_daily_summary 0 1 0 [1] (-999) c3Raw [] := by
  refine ⟨?_, ?_, ?_⟩ <;> with_unfolding_all decide

/-- Claim C3, amended: the hourly, last24h and minimum-interval tasks are
idempotent (the last one under the natural uniqueness of the configured
station-variable pairs), and the daily task is idempotent provided every
selected reading maps to a local day inside the half-open window of
start_date and end_date; an is_daily reading exactly at the end-boundary
local midnight maps to day end_date, escapes the delete window, and is
duplicated by a second run. -/
theorem C3_amended (s e : Int) (stationsH : List Nat) (missingH : ℚ)
    (rawH : List RawReading) (tableH : List HourlyRow)
    (now : Int) (missingL : ℚ) (rawL : List RawReading) (tableL : List Last24hRow)
    (sdM edM offM : Int) (svList : List StationVariable) (stationsM : List Nat)
    (rawM : List RawReading) (tableM : List MinIntRow)
    (sdD edD offD : Int) (stationsD : List Nat) (missingD : ℚ)
    (rawD : List RawReading) (tableD : List DailyRow)
    (hsv : (svList.map (fun sv => (sv.station_id, sv.variable_id))).Nodup)
    (hsub : ∀ r ∈ dailySelect false (sdD * 86400 - offD * 60)
        (edD * 86400 - offD * 60) stationsD missingD rawD,
      sdD ≤ dailyDateSub offD r.datetime ∧ dailyDateSub offD r.datetime < edD)
    (hdai : ∀ r ∈ dailySelect true (sdD * 86400 - offD * 60)
        (edD * 86400 - offD * 60) stationsD missingD rawD,
      sdD ≤ dailyDateDaily offD r.datetime ∧ dailyDateDaily offD r.datetime < edD) :
    calculate_hourly_summary s e stationsH missingH rawH
        (calculate_hourly_summary s e stationsH missingH rawH tableH) =
      calculate_hourly_summary s e stationsH missingH rawH tableH ∧
    calculate_last24h_summary now missingL rawL
        (calculate_last24h_summary now missingL rawL tableL) =
      calculate_last24h_summary now missingL rawL tableL ∧
    calculate_station_minimum_interval sdM edM offM svList stationsM rawM
        (calculate_station_minimum_interval sdM edM offM svList stationsM rawM tableM) =
      calculate_station_minimum_interval sdM edM offM svList stationsM rawM tableM ∧
    calculate_daily_summary sdD edD offD stationsD missingD rawD
        (calculate_daily_summary sdD edD offD stationsD missingD rawD tableD) =
      calculate_daily_summary sdD edD offD stationsD missingD rawD tableD :=
  ⟨calculate_hourly_idem s e stationsH missingH rawH tableH,
   calculate_last24h_idem now missingL rawL tableL,
   calculate_minint_idem sdM edM offM svList stationsM rawM tableM hsv,
   calculate_daily_idem sdD edD offD stationsD missingD rawD tableD hsub hdai⟩

/-- Witness of the amended claim C3 on the concrete scenario data, with a
daily window whose selected readings all map inside the deleted range. -/
theorem C3_witness :
    ((c2Sv.map (fun sv => (sv.station_id, sv.variable_id))).Nodup ∧
      (∀ r ∈ dailySelect false (0 * 86400 - 0 * 60) (1 * 86400 - 0 * 60) [1] (-999) c1Raw,
        0 ≤ dailyDateSub 0 r.datetime ∧ dailyDateSub 0 r.datetime < 1) ∧
      (∀ r ∈ dailySelect true (0 * 86400 - 0 * 60) (1 * 86400 - 0 * 60) [1] (-999) c1Raw,
        0 ≤ dailyDateDaily 0 r.datetime ∧ dailyDateDaily 0 r.datetime < 1)) ∧
    (calculate_hourly_summary 3600 7200 [1] (-999) c1Raw
        (calculate_hourly_summary 3600 7200 [1] (-999) c1Raw []) =
      calculate_hourly_summary 3600 7200 [1] (-999) c1Raw [] ∧
    calculate_last24h_summary 7200 (-999) c1Raw
        (calculate_last24h_summary 7200 (-999) c1Raw []) =
      calculate_last24h_summary 7200 (-999) c1Raw [] ∧
    calculate_station_minimum_interval 0 0 0 c2Sv [1] [c2GoodReading]
        (calculate_station_minimum_interval 0 0 0 c2Sv [1] [c2GoodReading] []) =
      calculate_station_minimum_interval 0 0 0 c2Sv [1] [c2GoodReading] [] ∧
    calculate_daily_summary 0 1 0 [1] (-999) c1Raw
        (calculate_daily_summary 0 1 0 [1] (-999) c1Raw []) =
      calculate_daily_summary 0 1 0 [1] (-999) c1Raw []) :=
  ⟨⟨by decide, by with_unfolding_all decide, by with_unfolding_all decide⟩,
   C3_amended 3600 7200 [1] (-999) c1Raw [] 7200 (-999) c1Raw []
     0 0 0 c2Sv [1] [c2GoodReading] [] 0 1 0 [1] (-999) c1Raw []
     (by decide) (by with_unfolding_all decide) (by with_unfolding_all decide)⟩

/-- Helper: the hourly selection ignores a reading whose value equals the
missing sentinel. -/
theorem hourlySelect_missing_cons (daily : Bool) (s e : Int) (stations : List Nat)
    (missing : ℚ) (raw : List RawReading) (r : RawReading)
    (hmiss : calcValue r = missing) :
    hourlySelect daily s e stations missing (r :: raw) =
    hourlySelect daily s e stations missing raw := by
  unfold hourlySelect
  rw [List.filter_cons]
  simp [hmiss]

/-- Helper: the daily selection ignores a reading whose value equals the
missing sentinel. -/
theorem dailySelect_missing_cons (daily : Bool) (ds de : Int) (stations : List Nat)
    (missing : ℚ) (raw : List RawReading) (r : RawReading)
    (hmiss : calcValue r = missing) :
    dailySelect daily ds de stations missing (r :: raw) =
    dailySelect daily ds de stations missing raw := by
  unfold dailySelect
  rw [List.filter_cons]
  simp [hmiss]

/-- Helper: the last24h aggregation selection ignores a reading whose value
equals the missing sentinel. -/
theorem last24hAggSelect_missing_cons (now : Int) (missing : ℚ)
    (raw : List RawReading) (r : RawReading) (hmiss : calcValue r = missing) :
    last24hAggSelect now missing (r :: raw) = last24hAggSelect now missing raw := by
  unfold last24hAggSelect
  rw [List.filter_cons]
  simp [hmiss]

/-- Claim C2, amended: a reading whose value equals the missing sentinel
contributes to no hourly, daily, or last24h stored min, max, avg, sum or
record count (adding such a reading leaves those computations unchanged);
the minimum-interval task however applies no value filter, so the sentinel
reading is counted in record_count and in the spacing computation there. -/
theorem C2_amended (r : RawReading) (raw : List RawReading) (s e : Int)
    (stations : List Nat) (missing : ℚ) (tableH : List HourlyRow)
    (sd ed off : Int) (stationsD : List Nat) (tableD : List DailyRow)
    (now : Int) (hmiss : calcValue r = missing) :
    calculate_hourly_summary s e stations missing (r :: raw) tableH =
      calculate_hourly_summary s e stations missing raw tableH ∧
    calculate_daily_summary sd ed off stationsD missing (r :: raw) tableD =
      calculate_daily_summary sd ed off stationsD missing raw tableD ∧
    last24hAggRows now missing (r :: raw) = last24hAggRows now missing raw := by
  refine ⟨?_, ?_, ?_⟩
  · unfold calculate_hourly_summary
    rw [hourlySelect_missing_cons false s e stations missing raw r hmiss,
      hourlySelect_missing_cons true s e stations missing raw r hmiss]
  · simp only [calculate_daily_summary]
    rw [dailySelect_missing_cons false _ _ stationsD missing raw r hmiss,
      dailySelect_missing_cons true _ _ stationsD missing raw r hmiss]
  · unfold last24hAggRows
    rw [last24hAggSelect_missing_cons now missing raw r hmiss]

/-- Witness of the amended claim C2 on the sentinel reading and the
scenario data. -/
theorem C2_witness :
    calcValue c2MissingReading = -999 ∧
    (calculate_hourly_summary 3600 7200 [1] (-999) (c2MissingReading :: c1Raw) [] =
      calculate_hourly_summary 3600 7200 [1] (-999) c1Raw [] ∧
    calculate_daily_summary 0 1 0 [1] (-999) (c2MissingReading :: c1Raw) [] =
      calculate_daily_summary 0 1 0 [1] (-999) c1Raw [] ∧
    last24hAggRows 7200 (-999) (c2MissingReading :: c1Raw) =
      last24hAggRows 7200 (-999) c1Raw) :=
  ⟨by decide,
   C2_amended c2MissingReading c1Raw 3600 7200 [1] (-999) [] 0 1 0 [1] [] 7200
     (by decide)⟩

/-- Claim C4, counterexample: for the reading at t = 2000 the accepted
readings of its trailing window are only the one with measured 10 (the
t = 0 reading is manually rejected), whose variance is NULL, coalesced to
0, not above the threshold 1 - so under the claim the current reading would
be flagged GOOD (4); the code however computes the variance over all
readings of the window (50), flags the two window readings SUSPICIOUS and
leaves the current reading at its initial flag 1. -/
theorem C4_counterexample :
    ((c4Raw.filter (fun p => decide (p.station_id = 1 ∧ p.variable_id = 1 ∧
        p.datetime < 2000 ∧ p.datetime ≥ 2000 - 86400 ∧ acceptedRow p = true))).map
      (fun p => p.measured) = [10] ∧ varSamp [10] = none) ∧
    svLookup c4Cfg 1 1 = some c4SvRow ∧
    c4SvRow.test_persistence_variance = some 1 ∧
    (varSamp (persistWindowMeasured c4Raw 1 1 2000)).getD 0 = 50 ∧
    (calculate_persist_qc_test c4Cfg c4Raw).map
      (fun r => r.qc_persist_quality_flag) = [2, 2, 1] := by
  refine ⟨⟨?_, ?_⟩, ?_, ?_, ?_, ?_⟩ <;> with_unfolding_all decide

/-- Helper: an element read positionally from a list is a member. -/
theorem mem_of_getElem? {α : Type} (l : List α) (i : Nat) (a : α)
    (h : l[i]? = some a) : a ∈ l := by
  induction l generalizing i with
  | nil => simp at h
  | cons x xs ih =>
    cases i with
    | zero =>
      rw [List.getElem?_cons_zero, Option.some.injEq] at h
      subst h
      exact List.mem_cons_self x xs
    | succ j =>
      rw [List.getElem?_cons_succ] at h
      exact List.mem_cons_of_mem x (ih j h)

/-- Claim C4, amended: a cursor record of the persistence test carries the
coalesced variance of all readings of the pair (regardless of acceptance
flags, over measured values) in the window closed at t - 24h and open at t,
together with the configured threshold; when that variance exceeds the
threshold the evaluation step flags SUSPICIOUS every reading of the pair
strictly inside the open window (the reading exactly at t - 24h and the
current reading are untouched), otherwise it flags the current reading
GOOD; the task folds these steps in (station, variable, datetime) order and
then applies the NEUTRAL resets, so a later GOOD verdict may overwrite an
earlier SUSPICIOUS mark. -/
theorem C4_amended (cfg : List StationVariable) (db : List RawReading)
    (v : RawReading) (rec : PersistRec) (hrec : mkPersistRec cfg db v = some rec)
    (i : Nat) (row : RawReading) (hrow : db[i]? = some row) :
    (rec.current_variance =
      (varSamp (persistWindowMeasured db v.station_id v.variable_id v.datetime)).getD 0 ∧
    rec.station_id = v.station_id ∧ rec.variable_id = v.variable_id ∧
    rec.datetime = v.datetime ∧
    (∃ sv, svLookup cfg v.station_id v.variable_id = some sv ∧
      sv.test_persistence_variance = some rec.test_persistence_variance)) ∧
    calculate_persist_qc_test cfg db =
      persistResets cfg ((persistRecs cfg db).foldl applyPersistRec db) ∧
    ∃ row2, (applyPersistRec db rec)[i]? = some row2 ∧
      (rec.current_variance > rec.test_persistence_variance →
        ((rec.station_id = row.station_id ∧ rec.variable_id = row.variable_id ∧
            rec.datetime > row.datetime ∧ row.datetime > rec.datetime - 86400) →
          row2.qc_persist_quality_flag = 2 ∧ row2.qc_persist_description ≠ none) ∧
        (¬(rec.station_id = row.station_id ∧ rec.variable_id = row.variable_id ∧
            rec.datetime > row.datetime ∧ row.datetime > rec.datetime - 86400) →
          row2 = row)) ∧
      (¬(rec.current_variance > rec.test_persistence_variance) →
        ((rec.station_id = row.station_id ∧ rec.variable_id = row.variable_id ∧
            rec.datetime = row.datetime) → row2.qc_persist_quality_flag = 4) ∧
        (¬(rec.station_id = row.station_id ∧ rec.variable_id = row.variable_id ∧
            rec.datetime = row.datetime) → row2 = row)) := by
  refine ⟨?_, rfl, ?_⟩
  · unfold mkPersistRec at hrec
    split at hrec
    · exact Option.noConfusion hrec
    · split at hrec
      · exact Option.noConfusion hrec
      · rename_i x1 sv hsv x2 thr hthr
        injection hrec with hrec
        subst hrec
        exact ⟨rfl, rfl, rfl, rfl, sv, hsv, by rw [hthr]⟩
  · refine ⟨persistRowStep row rec, ?_, ?_, ?_⟩
    · unfold applyPersistRec
      rw [List.getElem?_map, hrow]
      rfl
    · intro hvar
      unfold persistRowStep
      rw [if_pos hvar]
      constructor
      · intro hcond
        rw [if_pos (by simpa using hcond)]
        exact ⟨rfl, by simp⟩
      · intro hcond
        rw [if_neg (by simpa using hcond)]
    · intro hvar
      unfold persistRowStep
      rw [if_neg hvar]
      constructor
      · intro hcond
        rw [if_pos (by simpa using hcond)]
      · intro hcond
        rw [if_neg (by simpa using hcond)]

set_option maxRecDepth 100000 in
/-- Witness of the amended claim C4 at the triggering reading of the
counterexample data, applied to the manually rejected window row. -/
theorem C4_witness :
    (mkPersistRec c4Cfg c4Raw (mkReading 1 1 2000 7 false none 1 1) =
      some { station_id := 1, variable_id := 1, datetime := 2000,
             current_variance := 50, test_persistence_variance := 1 } ∧
      c4Raw[0]? = some (mkReading 1 1 0 0 false (some 3) 1 1)) ∧
    ((50 : ℚ) =
        (varSamp (persistWindowMeasured c4Raw 1 1 2000)).getD 0 ∧
      (1 : Nat) = 1 ∧ (1 : Nat) = 1 ∧ (2000 : Int) = 2000 ∧
      (∃ sv, svLookup c4Cfg 1 1 = some sv ∧
        sv.test_persistence_variance = some 1)) ∧
    calculate_persist_qc_test c4Cfg c4Raw =
      persistResets c4Cfg ((persistRecs c4Cfg c4Raw).foldl applyPersistRec c4Raw) ∧
    ∃ row2, (applyPersistRec c4Raw
        { station_id := 1, variable_id := 1, datetime := 2000,
          current_variance := 50, test_persistence_variance := 1 })[0]? = some row2 ∧
      ((50 : ℚ) > 1 →
        (((1 : Nat) = 1 ∧ (1 : Nat) = 1 ∧ (2000 : Int) > 0 ∧ (0 : Int) > 2000 - 86400) →
          row2.qc_persist_quality_flag = 2 ∧ row2.qc_persist_description ≠ none) ∧
        (¬((1 : Nat) = 1 ∧ (1 : Nat) = 1 ∧ (2000 : Int) > 0 ∧ (0 : Int) > 2000 - 86400) →
          row2 = mkReading 1 1 0 0 false (some 3) 1 1)) ∧
      (¬((50 : ℚ) > 1) →
        (((1 : Nat) = 1 ∧ (1 : Nat) = 1 ∧ (2000 : Int) = 0) →
          row2.qc_persist_quality_flag = 4) ∧
        (¬((1 : Nat) = 1 ∧ (1 : Nat) = 1 ∧ (2000 : Int) = 0) →
          row2 = mkReading 1 1 0 0 false (some 3) 1 1)) :=
  ⟨⟨by with_unfolding_all decide, by decide⟩,
   C4_amended c4Cfg c4Raw (mkReading 1 1 2000 7 false none 1 1)
     { station_id := 1, variable_id := 1, datetime := 2000,
       current_variance := 50, test_persistence_variance := 1 }
     (by with_unfolding_all decide) 0 (mkReading 1 1 0 0 false (some 3) 1 1)
     (by decide)⟩

/-- Helper: folding the step-test loop over the table equals mapping the
per-row fold over each row, because each cursor record rewrites rows
independently. -/
theorem foldl_applyStepRec (recs : List StepRec) :
    ∀ db : List RawReading,
      recs.foldl applyStepRec db = db.map (fun row => recs.foldl stepRowStep row) := by
  induction recs with
  | nil => intro db; simp
  | cons rec rest ih =>
    intro db
    show rest.foldl applyStepRec (applyStepRec db rec) = _
    rw [ih (applyStepRec db rec)]
    unfold applyStepRec
    rw [List.map_map]
    rfl

/-- Helper: the step update preserves the key columns of a row. -/
theorem stepUpdate_key (rec : StepRec) (row : RawReading) :
    (stepUpdate rec row).station_id = row.station_id ∧
    (stepUpdate rec row).variable_id = row.variable_id ∧
    (stepUpdate rec row).datetime = row.datetime := by
  unfold stepUpdate
  split
  · split
    · exact ⟨rfl, rfl, rfl⟩
    · exact ⟨rfl, rfl, rfl⟩
  · exact ⟨rfl, rfl, rfl⟩

/-- Helper: the per-row fold of the step test only consults the cursor
records matching the key of the row. -/
theorem foldl_stepRowStep_filter (recs : List StepRec) :
    ∀ row : RawReading,
      recs.foldl stepRowStep row =
      (recs.filter (fun rec => decide (rec.station_id = row.station_id ∧
        rec.variable_id = row.variable_id ∧ rec.datetime = row.datetime))).foldl
        (fun a rec => stepUpdate rec a) row := by
  induction recs with
  | nil => intro row; rfl
  | cons rec rest ih =>
    intro row
    rw [List.filter_cons]
    by_cases hc : (rec.station_id = row.station_id ∧ rec.variable_id = row.variable_id ∧
        rec.datetime = row.datetime)
    · rw [if_pos (by simpa using hc)]
      show rest.foldl stepRowStep (stepRowStep row rec) = _
      have hs : stepRowStep row rec = stepUpdate rec row := by
        unfold stepRowStep
        rw [if_pos (by simpa using hc)]
      rw [hs, ih (stepUpdate rec row)]
      obtain ⟨h1, h2, h3⟩ := stepUpdate_key rec row
      have hfun : (fun rec2 : StepRec => decide (rec2.station_id = (stepUpdate rec row).station_id ∧
          rec2.variable_id = (stepUpdate rec row).variable_id ∧
          rec2.datetime = (stepUpdate rec row).datetime)) =
          (fun rec2 : StepRec => decide (rec2.station_id = row.station_id ∧
          rec2.variable_id = row.variable_id ∧ rec2.datetime = row.datetime)) := by
        funext rec2
        rw [h1, h2, h3]
      rw [hfun]
      rfl
    · rw [if_neg (by simpa using hc)]
      have hs : stepRowStep row rec = row := by
        unfold stepRowStep
        rw [if_neg (by simpa using hc)]
      show rest.foldl stepRowStep (stepRowStep row rec) = _
      rw [hs, ih row]

/-- Helper: under distinct reading keys, filtering the cursor records of a
key-respecting record builder down to the key of a present reading yields
exactly the record of that reading. -/
theorem filterMap_filter_key (mk : RawReading → Option StepRec)
    (hkey : ∀ v rec, mk v = some rec → rec.station_id = v.station_id ∧
      rec.variable_id = v.variable_id ∧ rec.datetime = v.datetime) :
    ∀ l : List RawReading, (l.map rrKey).Nodup → ∀ r ∈ l,
      (l.filterMap mk).filter (fun rec => decide (rec.station_id = r.station_id ∧
        rec.variable_id = r.variable_id ∧ rec.datetime = r.datetime)) =
      (mk r).toList := by
  intro l
  induction l with
  | nil =>
    intro _ r hr
    cases hr
  | cons v rest ih =>
    intro hnd r hr
    have hvnot : rrKey v ∉ rest.map rrKey := (List.nodup_cons.mp hnd).1
    have hndr : (rest.map rrKey).Nodup := (List.nodup_cons.mp hnd).2
    rw [List.filterMap_cons]
    rcases List.mem_cons.mp hr with hrv | hrrest
    · subst hrv
      have hrest_nil : (rest.filterMap mk).filter
          (fun rec => decide (rec.station_id = r.station_id ∧
            rec.variable_id = r.variable_id ∧ rec.datetime = r.datetime)) = [] := by
        rw [List.filter_eq_nil_iff]
        intro rec hrec
        obtain ⟨w, hw, hws⟩ := List.mem_filterMap.mp hrec
        obtain ⟨h1, h2, h3⟩ := hkey w rec hws
        simp only [decide_eq_true_eq]
        intro hcon
        apply hvnot
        have hkw : rrKey w = rrKey r := by
          unfold rrKey
          rw [← h1, ← h2, ← h3, hcon.1, hcon.2.1, hcon.2.2]
        exact hkw ▸ List.mem_map_of_mem rrKey hw
      cases hmk : mk r with
      | none =>
        simpa [hmk] using hrest_nil
      | some rec =>
        simp only [hmk]
        rw [List.filter_cons]
        obtain ⟨h1, h2, h3⟩ := hkey r rec hmk
        rw [if_pos (by simp [h1, h2, h3]), hrest_nil]
        rfl
    · have hne : ∀ rec, mk v = some rec →
          decide (rec.station_id = r.station_id ∧ rec.variable_id = r.variable_id ∧
            rec.datetime = r.datetime) = false := by
        intro rec hmk
        obtain ⟨h1, h2, h3⟩ := hkey v rec hmk
        simp only [decide_eq_false_iff_not]
        intro hcon
        apply hvnot
        have hkv : rrKey v = rrKey r := by
          unfold rrKey
          rw [← h1, ← h2, ← h3, hcon.1, hcon.2.1, hcon.2.2]
        exact hkv ▸ List.mem_map_of_mem rrKey hrrest
      cases hmk : mk v with
      | none =>
        simpa [hmk] using ih hndr r hrrest
      | some rec =>
        simp only [hmk]
        rw [List.filter_cons, if_neg (by simp [hne rec hmk]), ih hndr r hrrest]

/-- Helper: the key columns of a step cursor record come from its
reading. -/
theorem mkStepRec_key (cfg : List StationVariable) (raw : List RawReading) :
    ∀ v rec, mkStepRec cfg raw v = some rec →
      rec.station_id = v.station_id ∧ rec.variable_id = v.variable_id ∧
      rec.datetime = v.datetime := by
  intro v rec h
  unfold mkStepRec at h
  split at h
  · exact Option.noConfusion h
  · split at h
    · exact Option.noConfusion h
    · injection h with h
      subst h
      exact ⟨rfl, rfl, rfl⟩

/-- Helper: the step cursor record of a reading of a configured pair. -/
theorem mkStepRec_some (cfg : List StationVariable) (raw : List RawReading)
    (v : RawReading) (sv : StationVariable) (T : ℚ)
    (hsv : svLookup cfg v.station_id v.variable_id = some sv)
    (hT : sv.test_step_value = some T) :
    mkStepRec cfg raw v =
      some { station_id := v.station_id, variable_id := v.variable_id,
             datetime := v.datetime, step_result := stepResultOf raw v,
             test_step_value := T,
             qc_persist_quality_flag := v.qc_persist_quality_flag } := by
  unfold mkStepRec
  simp only [hsv, hT]

/-- Helper: a reading of a pair with no configuration row yields no step
cursor record. -/
theorem mkStepRec_none_nosv (cfg : List StationVariable) (raw : List RawReading)
    (v : RawReading) (hsv : svLookup cfg v.station_id v.variable_id = none) :
    mkStepRec cfg raw v = none := by
  unfold mkStepRec
  simp only [hsv]

/-- Helper: a reading of a pair with a NULL step threshold yields no step
cursor record. -/
theorem mkStepRec_none_nothr (cfg : List StationVariable) (raw : List RawReading)
    (v : RawReading) (sv : StationVariable)
    (hsv : svLookup cfg v.station_id v.variable_id = some sv)
    (hT : sv.test_step_value = none) :
    mkStepRec cfg raw v = none := by
  unfold mkStepRec
  simp only [hsv, hT]

/-- Claim C5: for a reading of a pair with configured step threshold T, the
step test flags the reading SUSPICIOUS (2) when its absolute step from the
time-ordered predecessor exceeds T, forcing the overall quality_flag to the
rejected literal exactly when the persistence flag was already SUSPICIOUS
and leaving it unchanged otherwise; it flags the reading GOOD (4) when the
step is within T; and a reading of a pair without a configured threshold is
reset to NEUTRAL (1) with empty description. Keys of raw_data rows are
assumed distinct, the natural key of the table. -/
theorem C5_theorem (cfg : List StationVariable) (db : List RawReading)
    (hkeys : (db.map rrKey).Nodup) (i : Nat) (r : RawReading)
    (hr : db[i]? = some r) :
    ∃ r2, (calculate_step_qc_test cfg db)[i]? = some r2 ∧
      (∀ sv, svLookup cfg r.station_id r.variable_id = some sv →
        (∀ T, sv.test_step_value = some T →
          (stepResultOf db r > T →
            r2.qc_step_quality_flag = 2 ∧ r2.qc_step_description ≠ none ∧
            (r.qc_persist_quality_flag = 2 →
              r2.quality_flag = QualityFlagVal.rejectedBool) ∧
            (r.qc_persist_quality_flag ≠ 2 → r2.quality_flag = r.quality_flag)) ∧
          (¬(stepResultOf db r > T) →
            r2.qc_step_quality_flag = 4 ∧ r2.qc_step_description ≠ none ∧
            r2.quality_flag = r.quality_flag)) ∧
        (sv.test_step_value = none →
          r2.qc_step_quality_flag = 1 ∧ r2.qc_step_description = none)) ∧
      (svLookup cfg r.station_id r.variable_id = none →
        r2.qc_step_quality_flag = 1 ∧ r2.qc_step_description = none) := by
  have hmem : r ∈ db := mem_of_getElem? db i r hr
  have hrow_fold : (stepRecs cfg db).foldl stepRowStep r =
      ((mkStepRec cfg db r).toList).foldl (fun a rec => stepUpdate rec a) r := by
    rw [foldl_stepRowStep_filter]
    exact congrArg (fun l => l.foldl (fun a rec => stepUpdate rec a) r)
      (filterMap_filter_key (mkStepRec cfg db) (mkStepRec_key cfg db) db hkeys r hmem)
  have hfin : (calculate_step_qc_test cfg db)[i]? =
      some (stepResetRow cfg
        (((mkStepRec cfg db r).toList).foldl (fun a rec => stepUpdate rec a) r)) := by
    unfold calculate_step_qc_test stepResets
    rw [foldl_applyStepRec, List.map_map, List.getElem?_map, hr, ← hrow_fold]
    rfl
  refine ⟨_, hfin, ?_, ?_⟩
  · intro sv hsv
    refine ⟨?_, ?_⟩
    · intro T hT
      obtain ⟨recr, hmkeq, hs1, hs2, hs3⟩ :
          ∃ recr, mkStepRec cfg db r = some recr ∧
            recr.step_result = stepResultOf db r ∧ recr.test_step_value = T ∧
            recr.qc_persist_quality_flag = r.qc_persist_quality_flag :=
        ⟨_, mkStepRec_some cfg db r sv T hsv hT, rfl, rfl, rfl⟩
      rw [hmkeq]
      have hred : (((some recr).toList).foldl (fun a rec => stepUpdate rec a) r) =
          stepUpdate recr r := rfl
      rw [hred]
      have hreset : stepResetRow cfg (stepUpdate recr r) = stepUpdate recr r := by
        unfold stepResetRow
        rw [(stepUpdate_key recr r).1, (stepUpdate_key recr r).2.1]
        simp only [hsv, hT]
      rw [hreset]
      unfold stepUpdate
      rw [hs1, hs2, hs3]
      refine ⟨?_, ?_⟩
      · intro hgt
        rw [if_pos hgt]
        by_cases hp : r.qc_persist_quality_flag = 2
        · rw [if_pos hp]
          exact ⟨rfl, by simp, fun _ => rfl, fun hcon => absurd hp hcon⟩
        · rw [if_neg hp]
          exact ⟨rfl, by simp, fun hcon => absurd hcon hp, fun _ => rfl⟩
      · intro hle
        rw [if_neg hle]
        exact ⟨rfl, by simp, rfl⟩
    · intro hT
      rw [mkStepRec_none_nothr cfg db r sv hsv hT]
      have hred0 : (((none : Option StepRec)).toList).foldl
          (fun a rec => stepUpdate rec a) r = r := rfl
      rw [hred0]
      unfold stepResetRow
      simp only [hsv, hT]
      exact ⟨trivial, trivial⟩
  · intro hsv
    rw [mkStepRec_none_nosv cfg db r hsv]
    have hred0 : (((none : Option StepRec)).toList).foldl
        (fun a rec => stepUpdate rec a) r = r := rfl
    rw [hred0]
    unfold stepResetRow
    simp only [hsv]
    exact ⟨trivial, trivial⟩

/-- Witness of claim C5: pair (1,1) with threshold 1, a reading stepping by
10 whose persistence flag is already SUSPICIOUS, taken at position 1. -/
theorem C5_witness :
    ((c5Db.map rrKey).Nodup ∧ c5Db[1]? = some (mkReading 1 1 1000 10 false none 1 2)) ∧
    (∃ r2, (calculate_step_qc_test c5Cfg c5Db)[1]? = some r2 ∧
      (∀ sv, svLookup c5Cfg 1 1 = some sv →
        (∀ T, sv.test_step_value = some T →
          (stepResultOf c5Db (mkReading 1 1 1000 10 false none 1 2) > T →
            r2.qc_step_quality_flag = 2 ∧ r2.qc_step_description ≠ none ∧
            ((2 : Int) = 2 → r2.quality_flag = QualityFlagVal.rejectedBool) ∧
            ((2 : Int) ≠ 2 → r2.quality_flag = QualityFlagVal.flag 1)) ∧
          (¬(stepResultOf c5Db (mkReading 1 1 1000 10 false none 1 2) > T) →
            r2.qc_step_quality_flag = 4 ∧ r2.qc_step_description ≠ none ∧
            r2.quality_flag = QualityFlagVal.flag 1)) ∧
        (sv.test_step_value = none →
          r2.qc_step_quality_flag = 1 ∧ r2.qc_step_description = none)) ∧
      (svLookup c5Cfg 1 1 = none →
        r2.qc_step_quality_flag = 1 ∧ r2.qc_step_description = none)) :=
  ⟨⟨by decide, by decide⟩,
   C5_theorem c5Cfg c5Db (by decide) 1 (mkReading 1 1 1000 10 false none 1 2)
     (by decide)⟩

end Theorems

end SurfaceWx
